import Mathlib

/-!
Verification development for the Cooper_bot homework-handin service.

The definitions below are a shallow embedding of the Python sources
(`handinsvc.py`, `commands.py`, `config.py`): pure string/arithmetic code is
translated to Lean functions, stateful code is explicit state passing, machine
time is an explicit `Int` timestamp parameter, and fallible code returns
`Option`/`Except`.  Strings are manipulated mostly as `List Char`, matching
Python's per-character semantics (Lean `Char` is a unicode scalar value, as in
Python).
-/

namespace CooperBot

/-! ## Generic string helpers (Python `str` operations used by the sources) -/

/-- Python `str.isspace`-style whitespace test restricted to the whitespace
characters that actually occur in chat text (space, tab, CR, LF, full-width
space); `\s` in Python regexes also matches these. -/
def isWs (c : Char) : Bool :=
  c = ' ' || c = '\t' || c = '\r' || c = '\n' || c = '　'

/-- Python `str.strip()` on a char list. -/
def stripChars (s : List Char) : List Char :=
  (s.dropWhile isWs).reverse.dropWhile isWs |>.reverse

/-- Python `str.strip()`. -/
def pyStrip (s : String) : String :=
  ⟨stripChars s.data⟩

/-- Is `pat` a prefix of `s`? (decidable, executable) -/
def isPref : List Char → List Char → Bool
  | [], _ => true
  | _ :: _, [] => false
  | p :: ps, c :: cs => p = c && isPref ps cs

/-- Python `pat in s` (substring containment) on char lists. -/
def containsSub (s pat : List Char) : Bool :=
  match s with
  | [] => isPref pat []
  | _ :: cs => isPref pat s || containsSub cs pat

/-- Python `pat in s` on strings. -/
def pyIn (pat s : String) : Bool :=
  containsSub s.data pat.data

/-- Python `s.find(sub)`: index of first occurrence, `-1` if absent. -/
def pyFindAux (s pat : List Char) (i : Int) : Int :=
  match s with
  | [] => if isPref pat [] then i else -1
  | _ :: cs => if isPref pat s then i else pyFindAux cs pat (i + 1)

def pyFind (s pat : String) : Int :=
  pyFindAux s.data pat.data 0

/-- Python `str.replace(pat, rep)`: left-to-right, non-overlapping.  Fuel is
the length of the subject string, which suffices because a non-empty pattern
consumes at least one character per replacement. -/
def replaceAux (pat rep : List Char) : Nat → List Char → List Char
  | _, [] => []
  | 0, s => s
  | fuel + 1, c :: cs =>
    if pat ≠ [] ∧ isPref pat (c :: cs) then
      rep ++ replaceAux pat rep fuel ((c :: cs).drop pat.length)
    else
      c :: replaceAux pat rep fuel cs

def pyReplace (s pat rep : String) : String :=
  ⟨replaceAux pat.data rep.data s.data.length s.data⟩

/-- Python `str.lower()` restricted to ASCII (the error signatures compared in
`commands.py` are ASCII). -/
def pyLower (s : String) : String :=
  ⟨s.data.map Char.toLower⟩

/-- Python `str.split()` (split on whitespace runs, dropping empties). -/
def splitWsAux : List Char → List Char → List (List Char)
  | [], acc => if acc = [] then [] else [acc.reverse]
  | c :: cs, acc =>
    if isWs c then
      (if acc = [] then splitWsAux cs [] else acc.reverse :: splitWsAux cs [])
    else
      splitWsAux cs (c :: acc)

def pySplitWs (s : String) : List String :=
  (splitWsAux s.data []).map fun l => ⟨l⟩

/-- Final path component, `Path(filename).name`: the part after the last `/`. -/
def pathName (s : String) : String :=
  ⟨(s.data.reverse.takeWhile (· ≠ '/')).reverse⟩

/-- Index (from the start) of the last `.` in `l` that is at position ≥ 1,
`none` if there is no such dot.  This matches `pathlib`'s suffix rule: a
leading dot (hidden files) does not start a suffix. -/
def lastDotIdx (l : List Char) : Option Nat :=
  let idxs := (List.range l.length).filter fun i => decide (1 ≤ i) && (l.get? i == some '.')
  idxs.getLast?

/-- Stem of the filename, `Path(filename).stem`: final component without its
last suffix. -/
def pathStem (s : String) : String :=
  let n := (pathName s).data
  match lastDotIdx n with
  | some i => ⟨n.take i⟩
  | none => ⟨n⟩

/-- Last extension, `Path(filename).suffix`: last extension of the final
component, with the dot, or `""`. -/
def pathSuffix (s : String) : String :=
  let n := (pathName s).data
  match lastDotIdx n with
  | some i => ⟨n.drop i⟩
  | none => ""

/-! ## RosterMatcher (`handinsvc.py` lines 44–103)

Filename-based identity extraction: `clean_filename`, `looks_like_name`,
`extract_name_from_filename`, `extract_student_id`. -/

def BLACKLIST_SUBSTRINGS : List String :=
  ["电气", "学院", "工程", "班", "专业",
   "报告", "读书", "作业", "论文", "马原",
   "课", "阅读", "历史", "自由", "之间",
   "政治", "经济", "序言", "导言", "经典", "思想"]

def STRUCTURAL_WORDS : List String := ["电气", "学院", "工程", "班", "专业"]

def SEPARATORS : List String := ["-", "_", "——", "—", "–", ";", "，", ",", " "]

/-- Is `c` a CJK unified ideograph (`[一-鿿]`)? -/
def isCJK (c : Char) : Bool :=
  0x4e00 ≤ c.val && c.val ≤ 0x9fff

/-- Is `c` an ASCII digit (`\d` on the inputs in play)? -/
def isDigit (c : Char) : Bool :=
  '0' ≤ c && c ≤ '9'

/-- Is `c` an ASCII letter (`[A-Za-z]`, the `_RE_ENG` class)? -/
def isAsciiLetter (c : Char) : Bool :=
  ('A' ≤ c && c ≤ 'Z') || ('a' ≤ c && c ≤ 'z')

/-- One pass of `_RE_NUM.sub(" ", stem)` where `_RE_NUM = [Uu]?\d{4,}`:
leftmost, greedy, non-overlapping; each match is replaced by one space.
At each position the matcher tries `U`/`u` followed by ≥ 4 digits, then a bare
run of ≥ 4 digits; on failure it advances one character. -/
def subNumAux : Nat → List Char → List Char
  | _, [] => []
  | 0, s => s
  | fuel + 1, c :: cs =>
    let digs := cs.takeWhile isDigit
    if (c = 'U' ∨ c = 'u') ∧ 4 ≤ digs.length then
      ' ' :: subNumAux fuel (cs.drop digs.length)
    else
      let digs0 := (c :: cs).takeWhile isDigit
      if 4 ≤ digs0.length then
        ' ' :: subNumAux fuel ((c :: cs).drop digs0.length)
      else
        c :: subNumAux fuel cs

def subNum (s : List Char) : List Char :=
  subNumAux s.length s

/-- `_RE_ENG.sub(" ", stem)`: every ASCII letter becomes a space. -/
def subEng (s : List Char) : List Char :=
  s.map fun c => if isAsciiLetter c then ' ' else c

/-- `clean_filename` (handinsvc.py:58–64). -/
def clean_filename (filename : String) : String :=
  let stem := pathStem filename
  let stem := SEPARATORS.foldl (fun acc sep => pyReplace acc sep " ") stem
  ⟨subEng (subNum stem.data)⟩

/-- `looks_like_name` (handinsvc.py:66–72): a 2–3 character CJK token with no
blacklisted substring. -/
def looks_like_name (token : String) : Bool :=
  (token.data.length = 2 || token.data.length = 3) &&
  token.data.all isCJK &&
  BLACKLIST_SUBSTRINGS.all fun bad => !(pyIn bad token)

/-- Maximal CJK runs of a char list (`re.findall(r"[一-鿿]+", part)`). -/
def cjkChunksAux : List Char → List Char → List (List Char)
  | [], acc => if acc = [] then [] else [acc.reverse]
  | c :: cs, acc =>
    if isCJK c then
      cjkChunksAux cs (c :: acc)
    else
      (if acc = [] then cjkChunksAux cs [] else acc.reverse :: cjkChunksAux cs [])

def cjkChunks (s : String) : List String :=
  (cjkChunksAux s.data []).map fun l => ⟨l⟩

/-- Sliding windows of length `n` over `chunk`, left to right
(`chunk[i:i+n]` for `i in range(len(chunk) - n + 1)`). -/
def windows (n : Nat) (chunk : List Char) : List (List Char) :=
  if n ≤ chunk.length then
    (List.range (chunk.length - n + 1)).map fun i => (chunk.drop i).take n
  else []

/-- `extract_name_from_filename` (handinsvc.py:74–99). -/
def extract_name_from_filename (filename : String) : String :=
  let part := clean_filename filename
  let tokens := pySplitWs part
  -- 1) rightmost whitespace-delimited token that looks like a name
  match tokens.reverse.find? looks_like_name with
  | some tok => tok
  | none =>
    -- 2) pure-CJK token: the part before a structural word at index ≥ 2
    let structuralHit : Option String := tokens.findSome? fun tok =>
      if tok.data ≠ [] ∧ tok.data.all isCJK then
        STRUCTURAL_WORDS.findSome? fun sw =>
          let idx := pyFind tok sw
          if 2 ≤ idx then
            let pfx : String := ⟨tok.data.take idx.toNat⟩
            if looks_like_name pfx then some pfx else none
          else none
      else none
    match structuralHit with
    | some pfx => pfx
    | none =>
      -- 3) n-gram scan over contiguous CJK runs, last candidate wins
      let candidates := (cjkChunks part).flatMap fun chunk =>
        ([3, 2].flatMap fun n => windows n chunk.data).filterMap fun sub =>
          if looks_like_name ⟨sub⟩ then some (⟨sub⟩ : String) else none
      candidates.getLast? |>.getD ""

/-- `extract_student_id` (handinsvc.py:101–103): leftmost match of
`[Uu]\d{8,12}`, upper-cased.  Greedy: up to 12 digits are taken. -/
def extract_student_id_aux : List Char → Option (List Char)
  | [] => none
  | c :: cs =>
    let digs := cs.takeWhile isDigit
    if (c = 'U' ∨ c = 'u') ∧ 8 ≤ digs.length then
      some ('U' :: digs.take 12)
    else
      extract_student_id_aux cs

def extract_student_id (filename : String) : String :=
  match extract_student_id_aux filename.data with
  | some l => ⟨l⟩
  | none => ""

/-! ## Decimal rendering (Python `f"{n}"` on integers) -/

/-- Decimal digit character for `d < 10`. -/
def digitChar (d : Nat) : Char :=
  Char.ofNat (48 + d)

/-- Decimal digits of a natural number, most significant first.  The fuel
argument makes the recursion structural (kernel-computable); `fuel = n` is
always enough, since `n / 10` shrinks much faster than `fuel - 1`. -/
def natReprCore : Nat → Nat → List Char
  | 0, n => [digitChar n]
  | fuel + 1, n =>
    if n < 10 then [digitChar n]
    else natReprCore fuel (n / 10) ++ [digitChar (n % 10)]

/-- Decimal rendering of a natural number (Python `str(n)` for `n ≥ 0`). -/
def natRepr (n : Nat) : String :=
  ⟨natReprCore n n⟩

/-- Decimal rendering of an integer (Python `str(i)`). -/
def intRepr (i : Int) : String :=
  if i < 0 then "-" ++ natRepr i.natAbs else natRepr i.natAbs

/-! ## Calendar arithmetic

`parse_mmdd_hhmm` and `pretty_ts` convert between epoch timestamps and civil
date-times in the configured timezone (`Asia/Shanghai`, fixed offset UTC+8 —
constant since 1991, which covers every timestamp this bot handles).  The
civil-from-days / days-from-civil conversions are the standard era-based
algorithms; `datetime` construction validity follows Python's `datetime`
(month 1–12, day within month, hour ≤ 23, minute ≤ 59, year 1–9999). -/

/-- Floor of a rational to an integer (`math.floor`). -/
def ratFloor (q : Rat) : Int :=
  q.num.fdiv q.den

/-- Truncation toward zero (Python `int(float)`). -/
def pyInt (q : Rat) : Int :=
  if 0 ≤ q then ratFloor q else -(ratFloor (-q))

/-- Offset of `Asia/Shanghai` from UTC, in seconds. -/
def TZ_OFFSET : Int := 8 * 3600

/-- Gregorian leap-year test. -/
def isLeap (y : Int) : Bool :=
  (y % 4 = 0 && y % 100 ≠ 0) || y % 400 = 0

/-- Days in a month of a given year (month 1–12; 0 for out-of-range). -/
def daysInMonth (y : Int) (m : Nat) : Nat :=
  match m with
  | 1 => 31 | 2 => if isLeap y then 29 else 28 | 3 => 31 | 4 => 30
  | 5 => 31 | 6 => 30 | 7 => 31 | 8 => 31
  | 9 => 30 | 10 => 31 | 11 => 30 | 12 => 31
  | _ => 0

/-- Civil date (year, month, day) of a days-since-epoch count. -/
def civilFromDays (z0 : Int) : Int × Nat × Nat :=
  let z := z0 + 719468
  let era := z.fdiv 146097
  let doe := (z - era * 146097).toNat
  let yoe := (doe - doe / 1460 + doe / 36524 - doe / 146096) / 365
  let y : Int := (yoe : Int) + era * 400
  let doy := doe - (365 * yoe + yoe / 4 - yoe / 100)
  let mp := (5 * doy + 2) / 153
  let d := doy - (153 * mp + 2) / 5 + 1
  let m := if mp < 10 then mp + 3 else mp - 9
  (if m ≤ 2 then y + 1 else y, m, d)

/-- Days since the epoch of a civil date. -/
def daysFromCivil (y : Int) (m d : Nat) : Int :=
  let y' := if m ≤ 2 then y - 1 else y
  let era := y'.fdiv 400
  let yoe := (y' - era * 400).toNat
  let doy := (153 * (if 2 < m then m - 3 else m + 9) + 2) / 5 + d - 1
  let doe := yoe * 365 + yoe / 4 - yoe / 100 + doy
  era * 146097 + (doe : Int) - 719468

/-- Validity of a `datetime(year, mon, day, hh, mm)` construction: Python's
`datetime` raises `ValueError` outside these bounds. -/
def validDateTime (y : Int) (mon day hh mm : Nat) : Bool :=
  1 ≤ y && y ≤ 9999 &&
  1 ≤ mon && mon ≤ 12 &&
  1 ≤ day && decide (day ≤ daysInMonth y mon) &&
  hh ≤ 23 && mm ≤ 59

/-- Epoch timestamp of a tz-aware `datetime(y, mon, day, hh, mm, tzinfo=Asia/Shanghai)`. -/
def tsOfCivil (y : Int) (mon day hh mm : Nat) : Int :=
  daysFromCivil y mon day * 86400 + (hh : Int) * 3600 + (mm : Int) * 60 - TZ_OFFSET

/-- Year of `datetime.fromtimestamp(now, Asia/Shanghai)`. -/
def yearOf (now : Rat) : Int :=
  (civilFromDays ((ratFloor now + TZ_OFFSET).fdiv 86400)).1

/-- Left-pad with zeros to two digits (`%m`, `%d`, `%H`, `%M`). -/
def pad2 (n : Nat) : String :=
  if n < 10 then "0" ++ natRepr n else natRepr n

/-- Render a year (`%Y`; the years in play are four-digit). -/
def pad4 (y : Int) : String :=
  if 0 ≤ y ∧ y < 1000 then
    let s := natRepr y.natAbs
    ⟨List.replicate (4 - s.data.length) '0' ++ s.data⟩
  else intRepr y

/-- `pretty_ts` (handinsvc.py:200–204): `time.strftime("%Y-%m-%d %H:%M",
time.localtime(ts))` with the server's local timezone `Asia/Shanghai`. -/
def pretty_ts (ts : Rat) : String :=
  let total := ratFloor ts + TZ_OFFSET
  let days := total.fdiv 86400
  let sod := (total - days * 86400).toNat
  let c := civilFromDays days
  pad4 c.1 ++ "-" ++ pad2 c.2.1 ++ "-" ++ pad2 c.2.2 ++ " " ++
    pad2 (sod / 3600) ++ ":" ++ pad2 (sod % 3600 / 60)

/-! ## Time parsing (`parse_mmdd_hhmm`, handinsvc.py:156–197)

The regex `_RE_TIME = ^\s*(\d{1,2})[.。/\-](\d{1,2})\s*(\d{1,2})[:：](\d{1,2})\s*$`
is embedded as a backtracking matcher: each `\d{1,2}` group prefers two digits
and backtracks to one, exactly as Python's engine does.  A successful parse
builds a `datetime`; Python raises `ValueError` when the matched numbers do
not form a valid calendar date or time of day, which the embedding models as
`Except.error`. -/

/-- Numeric value of a digit character. -/
def dval (c : Char) : Nat :=
  c.toNat - 48

/-- Match `\d{1,2}` at the head of `s`, greedily (two digits first, then
backtrack to one), passing the value and the rest to the continuation. -/
def tryDigits12 {α : Type} (s : List Char) (k : Nat → List Char → Option α) : Option α :=
  match s with
  | [] => none
  | a :: rest =>
    if isDigit a then
      match rest with
      | b :: rest2 =>
        if isDigit b then (k (10 * dval a + dval b) rest2).orElse fun _ => k (dval a) rest
        else k (dval a) rest
      | [] => k (dval a) []
    else none

/-- Full match of `_RE_TIME` returning `(mon, day, hh, mm)`. -/
def matchTime (s : List Char) : Option (Nat × Nat × Nat × Nat) :=
  let s0 := s.dropWhile isWs
  tryDigits12 s0 fun mon s1 =>
    match s1 with
    | sep :: s2 =>
      if sep = '.' ∨ sep = '。' ∨ sep = '/' ∨ sep = '-' then
        tryDigits12 s2 fun day s3 =>
          tryDigits12 (s3.dropWhile isWs) fun hh s4 =>
            match s4 with
            | c :: s5 =>
              if c = ':' ∨ c = '：' then
                tryDigits12 s5 fun mm s6 =>
                  if s6.all isWs then some (mon, day, hh, mm) else none
              else none
            | [] => none
      else none
    | [] => none

/-- `parse_mmdd_hhmm` (handinsvc.py:158–197).  Returns `.ok none` when the
regex does not match, `.ok (some ts)` on success (adding one year when the
parsed time is not after `now`), and `.error` when the `datetime` constructor
raises `ValueError`. -/
def parse_mmdd_hhmm (s : String) (now_ts : Rat) : Except String (Option Rat) :=
  let s := pyStrip s
  match matchTime s.data with
  | none => .ok none
  | some (mon, day, hh, mm) =>
    let year := yearOf now_ts
    if validDateTime year mon day hh mm then
      let ts1 : Rat := (tsOfCivil year mon day hh mm : Int)
      if ts1 ≤ now_ts then
        if validDateTime (year + 1) mon day hh mm then
          .ok (some ((tsOfCivil (year + 1) mon day hh mm : Int) : Rat))
        else .error "ValueError"
      else .ok (some ts1)
    else .error "ValueError"

/-! ## Task data model (`HandinTask`, handinsvc.py:208–234)

Timestamps are rationals (Python uses floats; every operation on them in the
source is ordering/subtraction, for which exact rationals are faithful).
`time.time()` becomes an explicit `now` parameter. -/

structure HandinTask where
  task_id : String
  group_id : Int
  creator_id : Int
  name : String
  created_ts : Rat
  remind_ts_list : List Rat := []
  remind_sent_idx : Nat := 0
  deadline_ts : Rat := 0
  deadline_sent : Bool := false
  closed : Bool := false
  cancelled : Bool := false
  cancelled_ts : Rat := 0
  cancelled_by : Int := 0
  last_handinget_ts : Rat := 0
  purged : Bool := false
  purged_ts : Rat := 0
  deriving Repr, DecidableEq

/-- `HandinTask.is_active` (handinsvc.py:232–234): not closed and the current
time is strictly before the deadline. -/
def HandinTask.is_active (t : HandinTask) (now : Rat) : Bool :=
  !t.closed && now < t.deadline_ts

/-! ## The task table

`HandinService._tasks` is a Python dict keyed by `task_id`; it is embedded as
an association list with dict update semantics (replace in place if the key
exists, else append — Python dicts preserve insertion order and overwrite in
place). -/

abbrev TaskStore := List (String × HandinTask)

/-- Python `d[k] = v` on a dict. -/
def dictSet : TaskStore → String → HandinTask → TaskStore
  | [], k, v => [(k, v)]
  | (k', v') :: rest, k, v =>
    if k' = k then (k, v) :: rest else (k', v') :: dictSet rest k v

/-- Python `d.get(k)`. -/
def dictGet : TaskStore → String → Option HandinTask
  | [], _ => none
  | (k', v') :: rest, k => if k' = k then some v' else dictGet rest k

/-- Python `d.values()` (insertion order). -/
def storeValues (s : TaskStore) : List HandinTask :=
  s.map Prod.snd

/-! ## create_task / cancel_task (handinsvc.py:592–661) -/

/-- Insert `x` into an ascending sorted list, dropping duplicates
(`sorted(set(l))` composed element by element). -/
def insSortedUnique (x : Rat) : List Rat → List Rat
  | [] => [x]
  | y :: ys =>
    if x < y then x :: y :: ys
    else if x = y then y :: ys
    else y :: insSortedUnique x ys

/-- Python `sorted(set(l))`. -/
def sortedDedup (l : List Rat) : List Rat :=
  l.foldr insSortedUnique []

/-- Python `f"{int(group_id)}:{name}:{int(time.time())}"`
(handinsvc.py:621): the task id is the group id, the task name and the
creation time in whole seconds, joined by colons. -/
def taskId (group_id : Int) (name : String) (sec : Int) : String :=
  intRepr group_id ++ ":" ++ name ++ ":" ++ intRepr sec

/-- Result of a task-store mutation: success flag, user-visible message, and
the updated store. -/
structure OpResult where
  ok : Bool
  msg : String
  store : TaskStore
  deriving Repr, DecidableEq

/-- `HandinService.create_task` (handinsvc.py:592–644).  The reminder list
parameter is already a list of timestamps (the source filters out `None`
entries and float-coerces; both are identities here).  `now` stands for the
`time.time()` calls in the body. -/
def create_task (store : TaskStore) (now : Rat) (group_id creator_id : Int)
    (name : String) (remind_ts_list : List Rat) (deadline_ts : Option Rat) : OpResult :=
  let name := pyStrip name
  if name = "" ∨ pyIn " " name then
    ⟨false, "任务名不合法：不能为空且不能包含空格。", store⟩
  else match deadline_ts with
  | none => ⟨false, "时间格式不对：请用 月.日 时:分，例如 1.22 18:30（冒号中英文都行）。", store⟩
  | some dts =>
    let rlist := sortedDedup remind_ts_list
    if rlist.getLast?.any fun lastR => decide (dts ≤ lastR) then
      ⟨false, "提醒时间必须早于截止时间。", store⟩
    else if (storeValues store).any
        (fun t => t.group_id = group_id && t.name = name && t.is_active now) then
      ⟨false, "任务已存在：" ++ name ++ "（该群内同名任务尚未截止）", store⟩
    else
      let tid := taskId group_id name (pyInt now)
      let task : HandinTask :=
        { task_id := tid, group_id := group_id, creator_id := creator_id,
          name := name, created_ts := now, remind_ts_list := rlist,
          remind_sent_idx := 0, deadline_ts := dts }
      let msg_lines := ["创建提交任务成功：" ++ name] ++
        (if task.remind_ts_list ≠ [] then
          task.remind_ts_list.enum.map fun e =>
            "提醒" ++ natRepr (e.1 + 1) ++ "：" ++ pretty_ts e.2
         else ["提醒：无"]) ++
        ["截止：" ++ pretty_ts task.deadline_ts]
      ⟨true, String.intercalate "\n" msg_lines, dictSet store tid task⟩

/-- `HandinService.cancel_task` (handinsvc.py:646–661). -/
def cancel_task (store : TaskStore) (now : Rat) (task_id : String) (by_user_id : Int) : OpResult :=
  match dictGet store task_id with
  | none => ⟨false, "任务不存在。", store⟩
  | some t =>
    if t.closed then ⟨false, "任务已结束/已取消。", store⟩
    else
      let t' := { t with
        closed := true
        deadline_sent := true
        cancelled := true
        cancelled_ts := now
        cancelled_by := by_user_id }
      ⟨true, "已取消任务「" ++ t.name ++ "」（群 " ++ intRepr t.group_id ++ "）。", dictSet store task_id t'⟩

/-! ## Retention sweep (handinsvc.py:274–329)

The archive part of `cleanup_archives_and_inbox` walks every task and purges
eligible ones through `_purge_task_archive`; the inbox part touches only inbox
files (no task state), so the embedding covers the per-task state transition.
The boolean paired with each task records whether the sweep deleted the
task's archive directory (the `shutil.rmtree` call). -/

/-- `HANDIN_KEEP_DAYS_AFTER_LAST_GET * 86400.0` (config.py:174). -/
def keepSec : Rat := 30 * 86400

/-- `HandinService._purge_task_archive` (handinsvc.py:274–288): delete the
archive directory, mark `purged`, report whether anything changed. -/
def purge_task_archive (now : Rat) (t : HandinTask) : HandinTask × Bool :=
  if t.purged then (t, false)
  else ({ t with purged := true, purged_ts := now }, true)

/-- One task's treatment by the archive half of `cleanup_archives_and_inbox`
(handinsvc.py:300–312).  Returns the updated task, the `changed` flag, and
whether the archive directory was removed. -/
structure SweepOutcome where
  task : HandinTask
  changed : Bool
  dirRemoved : Bool
  deriving Repr, DecidableEq

def sweepTask (now : Rat) (t : HandinTask) : SweepOutcome :=
  if t.purged then ⟨t, false, false⟩
  else if t.last_handinget_ts ≤ 0 then ⟨t, false, false⟩
  else if t.is_active now then ⟨t, false, false⟩
  else if keepSec ≤ now - t.last_handinget_ts then
    let p := purge_task_archive now t
    ⟨p.1, p.2, true⟩
  else ⟨t, false, false⟩

/-- The archive half of `cleanup_archives_and_inbox` over the whole store:
every task is swept; the result is the new store and whether any task
changed. -/
def cleanup_archives (now : Rat) (store : TaskStore) : TaskStore × Bool :=
  let swept := store.map fun kv => (kv.1, sweepTask now kv.2)
  (swept.map fun kv => (kv.1, kv.2.task), swept.any fun kv => kv.2.changed)

/-! ## Roster lookup and the missing-list computation (handinsvc.py:399–422, 908–971)

`compute_missing` is a function of the cached roster and of the submitted
file names (`list_submitted_files` order); both are explicit parameters here.
Python's `set` of names is embedded as a duplicate-free list in first-insertion
order (set iteration order is hash-dependent in CPython; only membership and
cardinality of these sets are observable in the claims below). -/

/-- Add to a set modeled as a duplicate-free list. -/
def setAdd (s : List String) (x : String) : List String :=
  if s.contains x then s else s ++ [x]

/-- Deduplicate, keeping first occurrences. -/
def dedupKeepFirst (l : List String) : List String :=
  l.foldl setAdd []

/-- Stable insertion (descending by length): `x` goes after every existing
entry of length ≥ its own. -/
def insByLen (x : String) : List String → List String
  | [] => [x]
  | y :: ys => if y.data.length < x.data.length then x :: y :: ys else y :: insByLen x ys

/-- Python `sorted(l, key=len, reverse=True)` (stable). -/
def sortByLenDesc (l : List String) : List String :=
  l.foldl (fun acc x => insByLen x acc) []

/-- Whitespace removal, `re.sub(r"\s+", "", stem)`. -/
def removeWs (s : String) : String :=
  ⟨s.data.filter fun c => !isWs c⟩

/-- `HandinService.find_roster_name_in_filename` (handinsvc.py:411–422):
first roster name (in the given order) contained in the stem or in the
whitespace-stripped stem. -/
def find_roster_name_in_filename (filename : String) (roster_names : List String) : String :=
  if filename = "" then ""
  else
    let stem := pathStem filename
    let compact := removeWs stem
    match roster_names.find? (fun nm => nm ≠ "" && (pyIn nm stem || pyIn nm compact)) with
    | some nm => nm
    | none => ""

/-- The stats dict built by `compute_missing` (handinsvc.py:956–970). -/
structure MissingStats where
  roster_total : Nat := 0
  handed_in : Nat := 0
  missing : Nat := 0
  submitted_ids : Nat := 0
  submitted_names : Nat := 0
  submitted_files_total : Nat := 0
  recognized_name_files : Nat := 0
  recognized_name_ratio : Rat := 1
  unknown_name_files : List String := []
  submitted_file_names : List String := []
  use_submitted_list : Bool := false
  deriving Repr, DecidableEq

/-- Accumulator of the per-file loop in `compute_missing` (handinsvc.py:923–946). -/
structure MissScan where
  ids : List String := []
  names : List String := []
  fileNames : List String := []
  unknown : List String := []
  matched : Nat := 0
  deriving Repr, DecidableEq

/-- One iteration of the per-file loop: skip hidden files and `.part`
fragments, collect the student id, then try the roster-name match with the
legacy `extract_name_from_filename` fallback. -/
def missScanStep (roster_names roster_name_set : List String) (st : MissScan) (p : String) : MissScan :=
  if p.data.head? = some '.' then st
  else if pyLower (pathSuffix p) = ".part" then st
  else
    let st := { st with fileNames := st.fileNames ++ [p] }
    let sid := extract_student_id p
    let st := if sid ≠ "" then { st with ids := setAdd st.ids sid } else st
    let nm0 := find_roster_name_in_filename p roster_names
    let nm :=
      if nm0 = "" then
        let g := extract_name_from_filename p
        if g ≠ "" ∧ roster_name_set.contains g then g else ""
      else nm0
    if nm ≠ "" then
      { st with names := setAdd st.names nm, matched := st.matched + 1 }
    else
      { st with unknown := st.unknown ++ [p] }

/-- The handed-in test of `compute_missing`'s roster walk (handinsvc.py:951):
an entry counts as handed in when its non-empty id or non-empty name was
observed among submissions. -/
def handedBy (ids names : List String) (e : String × String) : Bool :=
  (!(e.1 == "") && ids.contains e.1) || (!(e.2 == "") && names.contains e.2)

/-- The roster walk of `compute_missing` (handinsvc.py:948–954): the loop
appends each entry that is not handed in to `missing` (preserving roster
order) and counts the handed-in ones. -/
def missingSplit (roster : List (String × String)) (ids names : List String) :
    List (String × String) × Nat :=
  (roster.filter fun e => !handedBy ids names e, roster.countP (handedBy ids names))

/-- Result quadruple of `compute_missing`. -/
structure ComputeOut where
  ok : Bool
  msg : String
  missing : List (String × String)
  stats : MissingStats
  deriving Repr, DecidableEq

/-- `HandinService.compute_missing` (handinsvc.py:908–971).  The `< 0.2`
float comparison is embedded as the exact rational `< 1/5`; the two agree for
every file count a chat group can produce (they can differ only when the
total number of files exceeds about `10^16`). -/
def compute_missing (roster : List (String × String)) (files : List String) : ComputeOut :=
  if roster = [] then
    ⟨false, "读取班级名册失败：名册文件不存在或格式不对", [], {}⟩
  else
    let roster_name_set := dedupKeepFirst
      ((roster.map fun e => pyStrip e.2).filter fun nm => nm ≠ "")
    let roster_names := sortByLenDesc roster_name_set
    let sc := files.foldl (missScanStep roster_names roster_name_set) {}
    let ms := missingSplit roster sc.ids sc.names
    let total := sc.fileNames.length
    let ratio : Rat := if sc.fileNames ≠ [] then (sc.matched : Rat) / (total : Rat) else 1
    let stats : MissingStats :=
      { roster_total := roster.length
        handed_in := ms.2
        missing := ms.1.length
        submitted_ids := sc.ids.length
        submitted_names := sc.names.length
        submitted_files_total := total
        recognized_name_files := sc.matched
        recognized_name_ratio := ratio
        unknown_name_files := sc.unknown
        submitted_file_names := sc.fileNames
        use_submitted_list := decide (0 < total) && (decide (sc.matched = 0) || decide (ratio < 1/5)) }
    ⟨true, "ok", ms.1, stats⟩

/-! ## Report formatting (`format_missing_message`, handinsvc.py:973–1023) -/

/-- Render `{x*100:.1f}` for the recognition ratio (one decimal,
round-half-up; Python's float `.1f` formatting can differ in the final digit
for adversarial ratios, which no claim observes). -/
def fmtPct1 (r : Rat) : String :=
  let n := ratFloor (r * 1000 + 1/2)
  intRepr (n / 10) ++ "." ++ intRepr (n % 10)

/-- Numbered listing `f"{i}. {x}"`, 1-based. -/
def numberedLines (l : List String) : List String :=
  l.enum.map fun e => natRepr (e.1 + 1) ++ ". " ++ e.2

/-- `HandinService.format_missing_message` as the `lines` list it joins
(handinsvc.py:973–1023). -/
def format_missing_lines (task : HandinTask) (missing : List (String × String))
    (stats : MissingStats) (title : String) : List String :=
  let lines := [title ++ "\n任务：" ++ task.name ++ "\n群：" ++ intRepr task.group_id ++
                  "\n截止：" ++ pretty_ts task.deadline_ts,
                "已交/总人数：" ++ natRepr stats.handed_in ++ "/" ++ natRepr stats.roster_total ++
                  "；未交：" ++ natRepr stats.missing]
  let lines := if 0 < stats.submitted_files_total then
      lines ++ ["姓名识别文件占比：" ++ natRepr stats.recognized_name_files ++ "/" ++
        natRepr stats.submitted_files_total ++ "（" ++ fmtPct1 stats.recognized_name_ratio ++ "%）"]
    else lines
  if stats.use_submitted_list then
    let lines := lines ++ ["⚠️ 姓名识别率过低（<20%）或未识别到名册姓名，改为发送已提交文件列表。"]
    if stats.submitted_file_names = [] then
      lines ++ ["当前没有已提交文件。"]
    else
      let lines := lines ++ ["已提交文件列表："] ++ numberedLines (stats.submitted_file_names.take 120)
      if 120 < stats.submitted_file_names.length then
        lines ++ ["...（共 " ++ natRepr stats.submitted_file_names.length ++ " 个，已截断显示前 120 个）"]
      else lines
  else
    let lines :=
      if missing = [] then lines ++ ["✅ 全部已提交。"]
      else
        let lines := lines ++ ["未交名单："] ++
          ((missing.take 120).enum.map fun e =>
            natRepr (e.1 + 1) ++ ". " ++ (if e.2.2 ≠ "" then e.2.2 else "（未知）"))
        if 120 < missing.length then
          lines ++ ["...（共 " ++ natRepr missing.length ++ " 人，已截断显示前 120 人）"]
        else lines
    if stats.unknown_name_files ≠ [] then
      let lines := lines ++ ["", "未识别到姓名信息的已提交文件："] ++
        numberedLines (stats.unknown_name_files.take 80)
      if 80 < stats.unknown_name_files.length then
        lines ++ ["...（共 " ++ natRepr stats.unknown_name_files.length ++ " 个，已截断显示前 80 个）"]
      else lines
    else lines

/-- The joined message string returned by `format_missing_message`. -/
def format_missing_message (task : HandinTask) (missing : List (String × String))
    (stats : MissingStats) (title : String) : String :=
  String.intercalate "\n" (format_missing_lines task missing stats title)

/-! ## Reminder/deadline scheduler (handinsvc.py:1026–1076)

One scheduler-pass treatment of a single non-closed task: the reminder while
loop followed by the deadline check.  The private message pushed through
`api.send_private_msg(t.creator_id, text)` is abstracted to a notification
record carrying the recipient and what was sent (a reminder with its index,
or the deadline notice); the text itself is `format_missing_message` output,
covered separately. -/

inductive Notif where
  | reminder (recipient : Int) (idx : Nat)
  | deadlineNote (recipient : Int)
  deriving Repr, DecidableEq

/-- The reminder while loop (handinsvc.py:1047–1059): starting at `idx`, fire
every reminder whose timestamp has passed, advancing one index at a time.
Fuel bounds the iteration count by the list length. -/
def fireRemindersAux (now : Rat) (lst : List Rat) (cr : Int) :
    Nat → Nat → Nat × List Notif
  | 0, idx => (idx, [])
  | fuel + 1, idx =>
    match lst.get? idx with
    | some ts =>
      if ts ≤ now then
        let r := fireRemindersAux now lst cr fuel (idx + 1)
        (r.1, .reminder cr idx :: r.2)
      else (idx, [])
    | none => (idx, [])

/-- One scheduler-pass treatment of a single task (handinsvc.py:1042–1071):
skip closed tasks, fire due reminders in index order, then fire the deadline
notice at most once and close the task. -/
def schedulerCheckTask (now : Rat) (t : HandinTask) : HandinTask × List Notif :=
  if t.closed then (t, [])
  else
    let fr := fireRemindersAux now t.remind_ts_list t.creator_id
      t.remind_ts_list.length t.remind_sent_idx
    let t1 := { t with remind_sent_idx := fr.1 }
    if t1.deadline_sent = false ∧ t1.deadline_ts ≤ now then
      ({ t1 with deadline_sent := true, closed := true }, fr.2 ++ [.deadlineNote t.creator_id])
    else (t1, fr.2)

/-- Operations that can touch a single task over its lifetime: scheduler
passes (`scheduler_loop` iterations) and explicit cancellation
(`cancel_task`, restricted to this task). -/
inductive TaskOp where
  | tick (now : Rat)
  | cancelOp (now : Rat) (uid : Int)
  deriving Repr, DecidableEq

def applyTaskOp (t : HandinTask) : TaskOp → HandinTask × List Notif
  | .tick now => schedulerCheckTask now t
  | .cancelOp now uid =>
    if t.closed then (t, [])
    else
      ({ t with
          closed := true
          deadline_sent := true
          cancelled := true
          cancelled_ts := now
          cancelled_by := uid }, [])

def runTaskOps (t : HandinTask) : List TaskOp → HandinTask × List Notif
  | [] => (t, [])
  | op :: ops =>
    let r := applyTaskOp t op
    let r2 := runTaskOps r.1 ops
    (r2.1, r.2 ++ r2.2)

/-- Number of deadline notifications in a notification log. -/
def countDeadlineNotifs (ns : List Notif) : Nat :=
  ns.countP fun n => match n with | .deadlineNote _ => true | _ => false

/-! ## Submission-session state machine (commands.py)

`BotState`'s per-user pending dictionaries are embedded as one record for the
user at hand (each handler only ever touches `ctx.user_id`'s entries; a
missing dict entry is `none`/`false`/`[]`).  Filesystem effects are explicit:
files unlinked by a handler are listed in the result, and the outcomes of
effectful collaborator calls (`move_inbox_to_task`, `_zip_pending_files`,
`_rename_pending_file_with_submitter`, `zip_submissions`, `_stage_for_napcat`,
`_send_file`) enter through an environment record, since they depend on disk
and transport state that the handler merely observes. -/

/-- An entry of `state.pending_handin_files[user]` (`{path, name, ts}`). -/
structure InboxItem where
  path : String
  name : String
  ts : Rat := 0
  deriving Repr, DecidableEq

/-- `state.pending_handin_overwrite[user]`. -/
structure OverwritePend where
  task_id : String
  path : String
  name : String
  ts : Rat := 0
  deriving Repr, DecidableEq

/-- `state.pending_handin_zip_name[user]`. -/
structure ZipPend where
  ts : Rat := 0
  suggested : String := ""
  deriving Repr, DecidableEq

/-- `state.pending_handin_choose[user]`. -/
structure ChoosePend where
  mode : String
  task_ids : List String
  ts : Rat := 0
  group_id : Option Int := none
  deriving Repr, DecidableEq

/-- The per-user slice of `BotState` (commands.py:188–203), plus the per-user
`last_find` slot that `/handincheck`-style listings refresh. -/
structure SessState where
  files : List InboxItem := []
  overwrite : Option OverwritePend := none
  waitDone : Bool := false
  zipName : Option ZipPend := none
  nameInput : Bool := false
  choose : Option ChoosePend := none
  lastFind : List String := []
  lastFindLabel : String := ""
  deriving Repr, DecidableEq

/-- What a handler did: whether it handled the message, the new session
state, the new task store, the replies sent (in order), and the temp files it
unlinked. -/
structure HandlerOut where
  handled : Bool
  state : SessState
  store : TaskStore
  replies : List String
  deleted : List String
  deriving Repr, DecidableEq

/-- Result quadruple of `HandinService.move_inbox_to_task`
(ok, msg, dst, code). -/
structure MoveRes where
  ok : Bool
  msg : String
  dst : Option String
  code : String
  deriving Repr, DecidableEq

/-- Python `s.strip(chars)` for an explicit character set. -/
def pyStripSet (s : String) (chars : List Char) : String :=
  ⟨((s.data.dropWhile (chars.contains ·)).reverse.dropWhile (chars.contains ·)).reverse⟩

/-- Python `s.lstrip(chars)`. -/
def pyLstripSet (s : String) (chars : List Char) : String :=
  ⟨s.data.dropWhile (chars.contains ·)⟩

/-- Characters `<>:"/\|?*` (illegal in path components). -/
def illegalPathChars : List Char := ['<', '>', ':', '"', '/', '\\', '|', '?', '*']

/-- Replace every maximal run of characters satisfying `p` by `rep`
(`re.sub(r"[...]+", rep, s)`). -/
def subRuns (p : Char → Bool) (rep : List Char) : List Char → List Char
  | [] => []
  | c :: cs =>
    if p c then rep ++ subRuns p rep (cs.dropWhile p)
    else c :: subRuns p rep cs
  termination_by l => l.length
  decreasing_by
    · simp only [List.length_cons]
      have := ((List.dropWhile_suffix (l := cs) p).sublist).length_le
      omega
    · simp

/-- Replace each single character satisfying `p` by `rep`
(`re.sub(r"[...]", rep, s)`, no `+`). -/
def subEach (p : Char → Bool) (rep : Char) (l : List Char) : List Char :=
  l.map fun c => if p c then rep else c

/-- `_safe_zip_label` (commands.py:296–299). -/
def safe_zip_label (raw : String) (dfault : String) : String :=
  let safe := pyStripSet ⟨subRuns (illegalPathChars.contains ·) ['_'] (pyStrip raw).data⟩ [' ', '.']
  let safe := ⟨subRuns isWs ['_'] safe.data⟩
  if safe = "" then dfault else safe

/-- `_sanitize_submitter_name` (commands.py:302–307). -/
def sanitize_submitter_name (raw : String) : String :=
  let s := pyStrip raw
  let s : String := ⟨s.data.filter fun c => !isWs c⟩
  let s : String := ⟨s.data.filter fun c => !(illegalPathChars.contains c || c.toNat < 32)⟩
  let s := pyStripSet s ['.', '_', '-']
  ⟨s.data.take 20⟩

/-- `HandinService._safe_component` (handinsvc.py:522–532). -/
def safe_component (s : String) (max_len : Nat := 80) : String :=
  let s := pyStrip s
  let s : String := ⟨subEach (illegalPathChars.contains ·) '_' s.data⟩
  let s := pyStrip ⟨subRuns isWs [' '] s.data⟩
  let s := pyStripSet s [' ', '.']
  let s := if s = "" then "_" else s
  if max_len < s.data.length then
    let s := pyStripSet ⟨s.data.take max_len⟩ [' ', '.']
    if s = "" then "_" else s
  else s

/-- `_suggest_batch_zip_basename` (commands.py:406–419). -/
def suggest_batch_zip_basename (items : List InboxItem) (user_id : Int) : String :=
  let step := items.foldl
    (fun (a : String × String) it =>
      let raw := pyStrip it.name
      let nm := if a.1 = "" ∧ raw ≠ "" then extract_name_from_filename raw else a.1
      let sid := if a.2 = "" ∧ raw ≠ "" then extract_student_id raw else a.2
      (nm, sid))
    ("", "")
  let nm := step.1
  let sid := step.2
  let base := if nm ≠ "" ∧ sid ≠ "" then nm ++ "-" ++ sid
    else if sid ≠ "" then sid else if nm ≠ "" then nm else "handin_u" ++ intRepr user_id
  let lbl := safe_zip_label base ("handin_u" ++ intRepr user_id)
  let lbl := pyStripSet ⟨lbl.data.take 60⟩ ['.', '_', '-']
  if lbl = "" then "handin_u" ++ intRepr user_id else lbl

/-- `_handin_tasks_list_text` (commands.py:582–587). -/
def handin_tasks_list_text (tasks : List HandinTask) : String :=
  String.intercalate "\n"
    (["请选择提交任务："] ++
     (tasks.enum.map fun e =>
       natRepr (e.1 + 1) ++ ". " ++ e.2.name ++ "（群 " ++ intRepr e.2.group_id ++
         "，截止 " ++ pretty_ts e.2.deadline_ts ++ "）") ++
     ["回复数字选择；回复 0 取消（删除临时文件）。"])

/-- `_handle_private_overwrite_yesno` (commands.py:770–855).  `activeTasks`
stands for `handin.list_active_tasks()` and `moveRes` for the
`move_inbox_to_task(..., overwrite=True)` outcome in the Y branch. -/
def handle_private_overwrite_yesno (store : TaskStore) (now : Rat)
    (activeTasks : List HandinTask) (moveRes : MoveRes)
    (st : SessState) (text : String) : HandlerOut :=
  match st.overwrite with
  | none => ⟨false, st, store, [], []⟩
  | some pend =>
    let ans := pyLower (pyStrip text)
    if ans ∉ (["y", "yes", "n", "no"] : List String) then
      ⟨true, st, store, ["请输入 Y 或 N（不区分大小写）。"], []⟩
    else
      let q := st.files
      if q = [] then
        ⟨true, { st with overwrite := none, waitDone := false, zipName := none, nameInput := false },
          store, ["没有待处理的提交文件了。"], []⟩
      else
        let item_idx := ((q.findIdx? fun it => it.path = pend.path).getD 0)
        let item := (q.get? item_idx).getD ⟨"", "", 0⟩
        let taskOk := match dictGet store pend.task_id with
          | some task => task.is_active now
          | none => false
        if !taskOk then
          ⟨true, { st with files := q.eraseIdx item_idx, overwrite := none, nameInput := false },
            store, ["任务不存在或已结束，已丢弃该文件。请重新发送文件。"], [item.path]⟩
        else
          let afterAnswer : SessState × List String × List String :=
            if ans = "n" ∨ ans = "no" then
              ({ st with files := q.eraseIdx item_idx, overwrite := none },
               ["已取消覆盖，请修改文件名后重新发送。"], [item.path])
            else if moveRes.ok then
              ({ st with files := q.eraseIdx item_idx, overwrite := none },
               [moveRes.msg], [])
            else
              ({ st with overwrite := none },
               [moveRes.msg ++ "\n你可以重新回复任务序号，或回复 0 取消该文件。"], [])
          let st' := afterAnswer.1
          if st'.files ≠ [] then
            if activeTasks ≠ [] then
              ⟨true,
                { st' with nameInput := false
                           choose := some ⟨"submit", activeTasks.map (·.task_id), now, none⟩ },
                store,
                afterAnswer.2.1 ++ ["你还有待分配的提交文件。\n" ++ handin_tasks_list_text activeTasks],
                afterAnswer.2.2⟩
            else
              ⟨true, st', store, afterAnswer.2.1, afterAnswer.2.2⟩
          else
            ⟨true, { st' with waitDone := false, zipName := none, nameInput := false },
              store, afterAnswer.2.1, afterAnswer.2.2⟩

/-- Is the text a run of ASCII digits (`re.fullmatch(r"\d+", t)`)? -/
def allDigits (s : String) : Bool :=
  s.data ≠ [] && s.data.all isDigit

/-- Numeric value of a digit string. -/
def digitsVal (l : List Char) : Nat :=
  l.foldl (fun a c => 10 * a + dval c) 0

/-- `_handle_private_name_input` (commands.py:858–933).  `renameOk`/`renameMsg`
and `renamedHead` are the outcome of `_rename_pending_file_with_submitter`
applied to the queue head (filesystem effect); `activeTasks` is
`handin.list_active_tasks()`. -/
def handle_private_name_input (store : TaskStore) (now : Rat)
    (activeTasks : List HandinTask) (renameOk : Bool) (renameMsg : String)
    (renamedHead : InboxItem) (st : SessState) (text : String) : HandlerOut :=
  if !st.nameInput then ⟨false, st, store, [], []⟩
  else
    let t := pyStrip text
    if t = "" then ⟨false, st, store, [], []⟩
    else if st.overwrite.isSome then
      ⟨true, st, store, ["你有一个待确认的覆盖操作，请先回复 Y/N。"], []⟩
    else
      let q := st.files
      if q = [] then
        ⟨true, { st with nameInput := false, waitDone := false, zipName := none, choose := none },
          store, ["没有待处理的提交文件了。"], []⟩
      else if 2 ≤ q.length then
        if activeTasks = [] then
          ⟨true, { st with nameInput := false, choose := none },
            store, ["当前没有正在进行的提交任务。"], []⟩
        else
          ⟨true, { st with nameInput := false, waitDone := true, zipName := none
                           choose := some ⟨"submit", activeTasks.map (·.task_id), now, none⟩ },
            store,
            ["检测到你在批量发送文件，请发完后回复 done，我会先让你命名 zip，再让你选择归档任务。"], []⟩
      else
        let skip := t = "0"
        let proceed : Option (String × List InboxItem) :=
          if skip then some ("", q)
          else
            let submitter := sanitize_submitter_name (pyStrip (pyLstripSet t ['/', '／']))
            if submitter = "" then none
            else if allDigits submitter then none
            else if !renameOk then none
            else some ("已补充姓名到文件名：" ++ renameMsg, renamedHead :: q.tail)
        match proceed with
        | none =>
          let submitter := sanitize_submitter_name (pyStrip (pyLstripSet t ['/', '／']))
          if submitter = "" then
            ⟨true, st, store, ["姓名格式不合法，请重新发送姓名；若不需要姓名信息或是小组作业，请回复 0 跳过。"], []⟩
          else if allDigits submitter then
            ⟨true, st, store, ["请发送姓名文本；若不需要姓名信息或是小组作业，请回复 0 跳过。"], []⟩
          else
            ⟨true, st, store, [renameMsg], []⟩
        | some pr =>
          let st' := { st with files := pr.2, nameInput := false, waitDone := false, zipName := none }
          if activeTasks = [] then
            ⟨true, { st' with choose := none }, store,
              [if pr.1 ≠ "" then pr.1 ++ "\n当前没有正在进行的提交任务。" else "当前没有正在进行的提交任务。"], []⟩
          else
            ⟨true, { st' with choose := some ⟨"submit", activeTasks.map (·.task_id), now, none⟩ },
              store,
              [String.intercalate "\n"
                ((if pr.1 ≠ "" then [pr.1] else []) ++ [handin_tasks_list_text activeTasks])], []⟩

/-- `LARGE_FILE_WARN_BYTES` (commands.py:37, config.py:161). -/
def LARGE_FILE_WARN_BYTES : Int := 50 * 1024 * 1024

/-- `_is_large` (commands.py:170–174). -/
def is_large (n_bytes : Option Int) : Bool :=
  match n_bytes with
  | some n => LARGE_FILE_WARN_BYTES ≤ n
  | none => false

/-- Render `f"{x:.2f}"` for a rational (round-half-up; Python's binary-float
`.2f` can differ in the last digit, which no claim observes). -/
def fmt2f (q : Rat) : String :=
  let n := ratFloor (q * 100 + 1/2)
  intRepr (n / 100) ++ "." ++ pad2 (n % 100).toNat

/-- `_fmt_mb` (commands.py:163–167). -/
def fmt_mb (n_bytes : Int) : String :=
  fmt2f ((n_bytes : Rat) / (1024 * 1024)) ++ "MB"

/-- The reply emitted by `_warn_large_if_needed` (commands.py:177–187), if
any. -/
def warn_large_lines (filename : String) (n_bytes : Option Int) (mode : String) : List String :=
  if !is_large n_bytes then []
  else
    let size_txt := fmt_mb (n_bytes.getD 0)
    if mode = "recv" then
      ["📎 收到文件「" ++ filename ++ "」约 " ++ size_txt ++ "，文件较大请耐心等待…"]
    else if mode = "zip" then
      ["📦 将发送压缩包「" ++ filename ++ "」约 " ++ size_txt ++ "，文件较大请耐心等待…"]
    else
      ["📤 即将发送文件「" ++ filename ++ "」约 " ++ size_txt ++ "，文件较大请耐心等待…"]

/-- Collaborator-call outcomes observed by `_handle_private_number_choice`
(filesystem and transport effects). -/
structure ChoiceEnv where
  activeTasks : List HandinTask := []     -- handin.list_active_tasks()
  roster : List (String × String) := []   -- handin._get_roster()
  submitted : List String := []           -- names of list_submitted_files(task)
  moveRes : MoveRes := ⟨false, "", none, "ERR"⟩  -- move_inbox_to_task(item, task, overwrite=False)
  zipOk : Bool := false                   -- zip_submissions(task, out_zip)
  zipMsg : String := ""
  zipPath : Option String := none
  zipSize : Option Int := none            -- Path(zpath).stat().st_size
  stagePath : Option String := none       -- _stage_for_napcat container path
  stageName : String := ""
  stageMsg : String := ""
  sendRes : Option Bool := none           -- _send_file result (modeled separately)
  sendDetail : String := ""
  deriving Repr, DecidableEq

/-- `_handle_private_number_choice` (commands.py:936–1164), all four pending
modes (`submit`, `status`, `check`, `getzip`). -/
def handle_private_number_choice (store : TaskStore) (now : Rat) (env : ChoiceEnv)
    (st : SessState) (text : String) : HandlerOut :=
  let t := pyStrip text
  if !(t.data ≠ [] && t.data.length ≤ 3 && t.data.all isDigit) then
    ⟨false, st, store, [], []⟩
  else match st.choose with
  | none => ⟨false, st, store, [], []⟩
  | some pend =>
    let choice := digitsVal t.data
    if pend.mode = "submit" then
      if st.overwrite.isSome then
        ⟨true, st, store, ["你有一个待确认的覆盖操作，请先回复 Y/N。"], []⟩
      else
        let q := st.files
        if q = [] then
          ⟨true, { st with waitDone := false, zipName := none, nameInput := false, choose := none },
            store, ["没有待分配的文件了。"], []⟩
        else if st.waitDone then
          if choice = 0 then
            ⟨true, { st with files := [], waitDone := false, zipName := none
                             nameInput := false, choose := none },
              store, ["已取消并删除全部临时文件。"], q.map (·.path)⟩
          else
            ⟨true, st, store,
              ["检测到你在批量发送文件，请先发完后回复 done（随后会先让你命名 zip；回复 0 可取消全部临时文件）。"], []⟩
        else if choice = 0 then
          let item := (q.get? 0).getD ⟨"", "", 0⟩
          ⟨true, { st with files := q.tail, waitDone := false, zipName := none
                           nameInput := false, choose := none },
            store, ["已取消并删除临时文件。"], [item.path]⟩
        else if choice < 1 ∨ pend.task_ids.length < choice then
          ⟨true, st, store, ["序号无效，请重新回复数字。"], []⟩
        else
          let tid := (pend.task_ids.get? (choice - 1)).getD ""
          let task? := dictGet store tid
          match task? with
          | none =>
            ⟨true, { st with choose := none }, store, ["任务不存在或已结束，请重新发送文件。"], []⟩
          | some task =>
            if !task.is_active now then
              ⟨true, { st with choose := none }, store, ["任务不存在或已结束，请重新发送文件。"], []⟩
            else
              let item := (q.get? 0).getD ⟨"", "", 0⟩
              let mr := env.moveRes
              if !mr.ok ∧ mr.code = "EXISTS" then
                ⟨true, { st with overwrite := some ⟨tid, item.path, item.name, now⟩, choose := none },
                  store, [mr.msg ++ "\n是否覆盖？(Y/N)"], []⟩
              else if !mr.ok then
                ⟨true, st, store, [mr.msg ++ "\n请重新回复任务序号，或回复 0 取消该文件。"], []⟩
              else
                let name := match mr.dst with
                  | some dst => pathName dst
                  | none => item.name
                let nm := extract_name_from_filename name
                let sid := extract_student_id name
                let warn := if nm = "" ∨ sid = "" then
                    "\n（提示：文件名最好包含姓名和学号，例如 张三-U2024xxxxxx.docx）"
                  else ""
                let q' := q.tail
                if q' ≠ [] then
                  ⟨true,
                    { st with files := q', nameInput := false
                              choose := some ⟨"submit", env.activeTasks.map (·.task_id), now, none⟩ },
                    store,
                    [mr.msg ++ warn,
                     "你还有 " ++ natRepr q'.length ++ " 份待分配文件。\n" ++
                       handin_tasks_list_text env.activeTasks], []⟩
                else
                  ⟨true, { st with files := q', waitDone := false, zipName := none
                                   nameInput := false, choose := none },
                    store, [mr.msg ++ warn], []⟩
    else if pend.mode = "status" then
      if choice < 1 ∨ pend.task_ids.length < choice then
        ⟨true, st, store, ["序号无效，请重新回复数字。"], []⟩
      else
        let tid := (pend.task_ids.get? (choice - 1)).getD ""
        match dictGet store tid with
        | none => ⟨true, { st with choose := none }, store, ["任务不存在。"], []⟩
        | some task =>
          let co := compute_missing env.roster env.submitted
          let text2 := if co.ok then
              format_missing_message task co.missing co.stats "📋 未提交名单"
            else "📋 未提交名单\n" ++ co.msg
          ⟨true, { st with choose := none }, store, [text2], []⟩
    else if pend.mode = "check" then
      if choice = 0 then
        ⟨true, { st with choose := none }, store, ["已取消操作。"], []⟩
      else if choice < 1 ∨ pend.task_ids.length < choice then
        ⟨true, st, store, ["序号无效，请重新回复数字。"], []⟩
      else
        let tid := (pend.task_ids.get? (choice - 1)).getD ""
        match dictGet store tid with
        | none => ⟨true, { st with choose := none }, store, ["任务不存在。"], []⟩
        | some task =>
          let files := env.submitted
          let st := { st with lastFind := files, lastFindLabel := task.name }
          if files = [] then
            ⟨true, { st with choose := none }, store,
              ["任务「" ++ task.name ++ "」当前还没有提交文件。"], []⟩
          else
            ⟨true, { st with choose := none }, store,
              [String.intercalate "\n"
                (["📦 已提交文件列表（任务：" ++ task.name ++ "，共 " ++
                    natRepr files.length ++ " 个）："] ++
                 numberedLines files ++
                 ["用 /get 序号（如/get 1 2 3 4）获取其中一个或多个文件。"])], []⟩
    else if pend.mode = "getzip" then
      if choice = 0 then
        ⟨true, { st with choose := none }, store, ["已取消操作。"], []⟩
      else if choice < 1 ∨ pend.task_ids.length < choice then
        ⟨true, st, store, ["序号无效，请重新回复数字。"], []⟩
      else
        let tid := (pend.task_ids.get? (choice - 1)).getD ""
        match dictGet store tid with
        | none => ⟨true, { st with choose := none }, store, ["任务不存在。"], []⟩
        | some task =>
          if !env.zipOk ∨ env.zipPath = none then
            ⟨true, { st with choose := none }, store, [env.zipMsg], []⟩
          else
            let warns := warn_large_lines (task.name ++ ".zip") env.zipSize "zip"
            match env.stagePath with
            | none =>
              ⟨true, { st with choose := none }, store,
                warns ++ ["staging 失败：" ++ env.stageMsg], []⟩
            | some _ =>
              match env.sendRes with
              | some true =>
                let task' := { task with last_handinget_ts := now }
                ⟨true, { st with choose := none }, dictSet store tid task',
                  warns ++ [env.zipMsg ++ "\n已发送压缩包。"], []⟩
              | none =>
                let task' := { task with last_handinget_ts := now }
                ⟨true, { st with choose := none }, dictSet store tid task',
                  warns ++ [env.zipMsg ++ "\n已提交发送。" ++
                    (if env.sendDetail ≠ "" then " " ++ env.sendDetail else "") ++
                    "若你已在 QQ 里看到文件卡片，可忽略。"], []⟩
              | some false =>
                ⟨true, { st with choose := none }, store,
                  warns ++ ["发送失败：" ++
                    (if env.sendDetail ≠ "" then env.sendDetail
                     else "请确认 docker-compose 挂载、NapCat/QQ 账号权限。")], []⟩
    else ⟨false, st, store, [], []⟩

/-- `_handle_cancel_number_choice` (commands.py:1168–1217). -/
def handle_cancel_number_choice (store : TaskStore) (now : Rat)
    (st : SessState) (text : String)
    (scene : String) (ctxGroup : Option Int) (userId : Int) (level : Int) : HandlerOut :=
  let t := pyStrip text
  if !(t.data ≠ [] && t.data.length ≤ 3 && t.data.all isDigit) then
    ⟨false, st, store, [], []⟩
  else match st.choose with
  | none => ⟨false, st, store, [], []⟩
  | some pend =>
    if pend.mode ≠ "cancel" then ⟨false, st, store, [], []⟩
    else
      let gidOk := match pend.group_id with
        | some gid =>
          if scene = "group" then
            match ctxGroup with
            | some g => g = gid
            | none => false
          else true
        | none => true
      if !gidOk then ⟨false, st, store, [], []⟩
      else
        let choice := digitsVal t.data
        if choice = 0 then
          ⟨true, { st with choose := none }, store, ["已取消操作。"], []⟩
        else if choice < 1 ∨ pend.task_ids.length < choice then
          ⟨true, st, store, ["序号无效，请重新回复数字。"], []⟩
        else
          let tid := (pend.task_ids.get? (choice - 1)).getD ""
          let taskOk := match dictGet store tid with
            | some task => some task
            | none => none
          match taskOk with
          | none => ⟨true, { st with choose := none }, store, ["任务不存在或已结束。"], []⟩
          | some task =>
            if !task.is_active now then
              ⟨true, { st with choose := none }, store, ["任务不存在或已结束。"], []⟩
            else if level < 3 ∧ task.creator_id ≠ userId then
              ⟨true, { st with choose := none }, store,
                ["权限不足：只能取消你创建的任务（或联系管理员）。"], []⟩
            else
              let r := cancel_task store now tid userId
              ⟨true, { st with choose := none }, r.store, [r.msg], []⟩

/-- `_handle_private_zip_name_input` (commands.py:2016–2109).  `zipOk`,
`zipMsg`, `zipPacked`, `zipMissing` are the `_zip_pending_files` outcome, and
`outZipName` the collision-resolved zip file name (both filesystem effects);
`activeTasks` is `handin.list_active_tasks()`. -/
def handle_private_zip_name_input (store : TaskStore) (now : Rat)
    (activeTasks : List HandinTask) (userId : Int)
    (zipOk : Bool) (zipMsg : String) (zipPacked : Nat) (zipMissing : Nat)
    (outZipName : String) (st : SessState) (text : String) : HandlerOut :=
  match st.zipName with
  | none => ⟨false, st, store, [], []⟩
  | some pend =>
    let t := pyStrip text
    if t = "" then ⟨false, st, store, [], []⟩
    else if st.overwrite.isSome then
      ⟨true, st, store, ["你有一个待确认的覆盖操作，请先回复 Y/N。"], []⟩
    else if t ∈ (["0", "取消", "/cancel", "／cancel"] : List String) then
      let q := st.files
      ⟨true, { st with files := [], waitDone := false, zipName := none
                       nameInput := false, choose := none },
        store, ["已取消并删除全部临时文件。"], q.map (·.path)⟩
    else
      let q := st.files
      if q = [] then
        ⟨true, { st with waitDone := false, zipName := none, nameInput := false, choose := none },
          store, ["没有待处理的提交文件了。"], []⟩
      else
        let raw_name := pyStrip (pyLstripSet t ['/', '／'])
        let raw_name := if (pyLower raw_name).endsWith ".zip" then
            pyStrip ⟨raw_name.data.take (raw_name.data.length - 4)⟩
          else raw_name
        let default_name := if pend.suggested ≠ "" then pend.suggested
          else suggest_batch_zip_basename q userId
        let base := safe_zip_label raw_name default_name
        let base := if base = "" then default_name else base
        let _ := base  -- the zip is created at data/temp/handin_batch/<base>.zip,
                       -- collision-resolved on disk to `outZipName`
        if !zipOk then
          ⟨true, st, store, [zipMsg], []⟩
        else
          let st' := { st with
            files := [⟨"data/temp/handin_batch/" ++ outZipName, outZipName, now⟩]
            waitDone := false
            zipName := none
            nameInput := false }
          if activeTasks = [] then
            ⟨true, { st' with choose := none }, store,
              ["已将 " ++ natRepr zipPacked ++ " 个文件打包为：" ++ outZipName ++
                 "\n当前没有正在进行的提交任务。"], q.map (·.path)⟩
          else
            ⟨true, { st' with choose := some ⟨"submit", activeTasks.map (·.task_id), now, none⟩ },
              store,
              [String.intercalate "\n"
                (["已将 " ++ natRepr zipPacked ++ " 个文件打包为：" ++ outZipName ++ "。"] ++
                 (if 0 < zipMissing then
                    ["另有 " ++ natRepr zipMissing ++ " 个文件未找到，已跳过。"]
                  else []) ++
                 [handin_tasks_list_text activeTasks])],
              q.map (·.path)⟩

/-! ## Artifact delivery (`_send_file`, commands.py:481–579)

The transport (`api.upload_group_file` / `api.upload_private_file`) is a
stream of per-attempt outcomes: `none` models a call that returned no
confirmable response, `some r` a response dict.  Each attempt consumes one
stream element. -/

/-- A OneBot response dict, restricted to the fields `_send_file` reads. -/
structure Resp where
  status : String := ""
  retcode : Int := 0
  wording : String := ""
  message : String := ""
  deriving Repr, DecidableEq

/-- `_ok(resp)` (commands.py:489–490). -/
def respOk (r : Resp) : Bool :=
  r.status = "ok" && r.retcode = 0

/-- `_detail(resp)` (commands.py:492–499). -/
def respDetail (r : Resp) : String :=
  let msg := pyStrip (if r.wording ≠ "" then r.wording else r.message)
  if msg ≠ "" then "retcode=" ++ intRepr r.retcode ++ " " ++ msg
  else "retcode=" ++ intRepr r.retcode

/-- `_is_rich_fail` (commands.py:501–502). -/
def is_rich_fail (s : String) : Bool :=
  pyIn "rich media transfer failed" (pyLower s)

/-- `_is_missing_file_fail` (commands.py:504–506). -/
def is_missing_file_fail (s : String) : Bool :=
  pyIn "enoent" (pyLower s) || pyIn "no such file or directory" (pyLower s)

/-- `_is_retryable_fail` (commands.py:508–510). -/
def is_retryable_fail (s : String) : Bool :=
  is_rich_fail s || is_missing_file_fail s

/-- `SEND_RETRY_DELAYS = [0.8, 1.8]` (config.py:155). -/
def SEND_RETRY_DELAYS : List Rat := [4/5, 9/5]

/-- Pop the next transport response (an exhausted stream behaves like an
unconfirmed call). -/
def nextResp : List (Option Resp) → Option Resp × List (Option Resp)
  | [] => (none, [])
  | r :: rest => (r, rest)

/-- The `for delay in SEND_RETRY_DELAYS` loop inside `_retry`
(commands.py:517–528). -/
def retryAux (stream : List (Option Resp)) (d : String) :
    List Rat → (Option Bool × String) × List (Option Resp)
  | [] => ((some false, d), stream)
  | _ :: delays =>
    let (resp, rest) := nextResp stream
    match resp with
    | none => ((none, ""), rest)
    | some r =>
      if respOk r then ((some true, "（已自动重试后成功）"), rest)
      else
        let d' := respDetail r
        if !is_retryable_fail d' then ((some false, d'), rest)
        else retryAux rest d' delays

/-- `_retry` (commands.py:512–528): retry only transient-classified failures,
consuming one transport attempt per configured delay. -/
def pyRetry (stream : List (Option Resp)) (first_detail : String) :
    (Option Bool × String) × List (Option Resp) :=
  if !is_retryable_fail first_detail then ((some false, first_detail), stream)
  else retryAux stream first_detail SEND_RETRY_DELAYS

/-- `_try_group_send` / `_try_private_send` (commands.py:530–547): one initial
attempt, then `_retry` on failure.  Both have the same control flow over their
respective transport streams. -/
def tryChannelSend (stream : List (Option Resp)) :
    (Option Bool × String) × List (Option Resp) :=
  let (resp, rest) := nextResp stream
  match resp with
  | none => ((none, ""), rest)
  | some r =>
    if respOk r then ((some true, ""), rest)
    else pyRetry rest (respDetail r)

/-- `UPLOAD_GROUP_CONTAINER_DIR` (config.py:146). -/
def UPLOAD_GROUP_CONTAINER_DIR : String := "/data/upload_group_file"

/-- `UPLOAD_PRIVATE_CONTAINER_DIR` (config.py:147). -/
def UPLOAD_PRIVATE_CONTAINER_DIR : String := "/data/upload_private_file"

/-- Group and private transport streams. -/
structure SendEnv where
  groupResps : List (Option Resp) := []
  privResps : List (Option Resp) := []
  deriving Repr, DecidableEq

/-- `_send_file` (commands.py:481–579).  Returns the tri-state result and
detail, plus the streams after the consumed attempts. -/
def send_file (scene : String) (group_id : Option Int) (container_path : String)
    (env : SendEnv) : (Option Bool × String) × SendEnv :=
  if scene = "group" ∧ group_id ≠ none then
    let g := tryChannelSend env.groupResps
    let env := { env with groupResps := g.2 }
    match g.1.1 with
    | some true => ((some true, g.1.2), env)
    | none => ((none, ""), env)
    | some false =>
      let detail := g.1.2
      let _private_path :=
        if is_missing_file_fail detail ∧
            container_path.startsWith (UPLOAD_GROUP_CONTAINER_DIR ++ "/") then
          UPLOAD_PRIVATE_CONTAINER_DIR ++ "/" ++ pathName container_path
        else container_path
      let p := tryChannelSend env.privResps
      let env := { env with privResps := p.2 }
      match p.1.1 with
      | some true => ((some true, "（群文件发送失败，已改为私聊发送）" ++ p.1.2), env)
      | none => ((none, "群文件失败，已尝试私聊发送"), env)
      | some false =>
        let detailp := p.1.2
        let extra := if is_rich_fail detail || is_rich_fail detailp then
            "（NapCat/QQ 返回 rich media transfer failed：常见原因是账号风控、群文件权限不足、群文件容量已满，或 Windows↔Docker 挂载同步延迟）"
          else ""
        ((some false,
          (if detail ≠ "" then detail else "群文件失败") ++ "；私聊也失败：" ++ detailp ++ extra),
          env)
  else
    let p := tryChannelSend env.privResps
    let env := { env with privResps := p.2 }
    match p.1.1 with
    | some true => ((some true, p.1.2), env)
    | none => ((none, ""), env)
    | some false => ((some false, p.1.2), env)

/-! ## Invariant statements and concrete fixtures -/

/-- At most one active task per `(group_id, name)` pair, at every time from
`t0` on: any two stored tasks with the same group and name that are both
active at some `τ ≥ t0` are the same task. -/
def ActiveUniqueFrom (store : TaskStore) (t0 : Rat) : Prop :=
  ∀ τ, t0 ≤ τ → ∀ a ∈ storeValues store, ∀ b ∈ storeValues store,
    a.group_id = b.group_id → a.name = b.name →
    a.is_active τ = true → b.is_active τ = true → a = b

/-- Fixture: an active task of group 1 named `a` (deadline 200). -/
def wTaskA : HandinTask :=
  { task_id := "1:a:50", group_id := 1, creator_id := 2, name := "a",
    created_ts := 50, deadline_ts := 200 }

/-- Fixture: a non-closed task with two sorted reminders. -/
def wTaskB : HandinTask :=
  { task_id := "1:b:50", group_id := 1, creator_id := 2, name := "b",
    created_ts := 50, remind_ts_list := [10, 20], deadline_ts := 200 }

/-- Fixture: an expired, exported task eligible for the retention sweep. -/
def wTaskC : HandinTask :=
  { task_id := "1:c:10", group_id := 1, creator_id := 2, name := "c",
    created_ts := 10, deadline_ts := 50, closed := true, last_handinget_ts := 100 }

/-- Fixture: a transient-classified transport failure response. -/
def wRespT : Resp :=
  { status := "failed", retcode := 1, message := "rich media transfer failed" }

/-- Fixture: a successful transport response. -/
def wRespOk : Resp :=
  { status := "ok", retcode := 0 }

/-- Fixture: a session waiting on `done` with one queued file and a pending
submit choice. -/
def wSessDone : SessState :=
  { files := [⟨"/tmp/a", "a", 0⟩], waitDone := true,
    choose := some ⟨"submit", ["1:a:100"], 0, none⟩ }

/-- Fixture: a session waiting on a zip name with two queued files. -/
def wSessZip : SessState :=
  { files := [⟨"/tmp/a", "a", 0⟩, ⟨"/tmp/b", "b", 0⟩],
    zipName := some ⟨0, "sug"⟩ }

/-! # Theorems -/

/-- C6: for the filename `电气工程1班张三-U202412345.docx`, `extract_student_id`
returns `U202412345` and `extract_name_from_filename` returns `张三` — in
particular not `电气`, `工程` or `1班`. -/
theorem c6_roster_extraction :
    extract_student_id "电气工程1班张三-U202412345.docx" = "U202412345" ∧
    extract_name_from_filename "电气工程1班张三-U202412345.docx" = "张三" ∧
    extract_name_from_filename "电气工程1班张三-U202412345.docx" ≠ "电气" ∧
    extract_name_from_filename "电气工程1班张三-U202412345.docx" ≠ "工程" ∧
    extract_name_from_filename "电气工程1班张三-U202412345.docx" ≠ "1班" := by
  refine ⟨?_, ?_, ?_, ?_, ?_⟩ <;> decide

/-- C10 (code bug): `parse_mmdd_hhmm` is not total.  The input `"2.30 10:00"`
matches the `_RE_TIME` regex (month 2, day 30), so the code reaches
`datetime(year, 2, 30, 10, 0)`, which raises `ValueError` instead of
returning `None` — here at `now = 0` (year 1970; the same happens for every
`now`, since no year has a February 30th). -/
theorem c10_parse_raises_on_invalid_date :
    parse_mmdd_hhmm "2.30 10:00" 0 = .error "ValueError" ∧
    matchTime ("2.30 10:00".data) = some (2, 30, 10, 0) ∧
    parse_mmdd_hhmm "garbage" 0 = .ok none :=
  ⟨rfl, by decide, rfl⟩

/-- Helper: the sweep skips already-purged tasks entirely. -/
theorem sweepTask_purged_noop (now : Rat) (t : HandinTask) (h : t.purged = true) :
    sweepTask now t = ⟨t, false, false⟩ := by
  unfold sweepTask
  simp [h]

/-- Helper: a sweep either leaves the task untouched or leaves it purged. -/
theorem sweepTask_cases (now : Rat) (t : HandinTask) :
    sweepTask now t = ⟨t, false, false⟩ ∨ (sweepTask now t).task.purged = true := by
  unfold sweepTask purge_task_archive
  split
  · left; rfl
  · split
    · left; rfl
    · split
      · left; rfl
      · split
        · right
          rename_i hpurged _ _ _
          simp [hpurged]
        · left; rfl

/-- C4: the retention sweep purges a task (sets `purged`, removes its archive
directory) only when the task is inactive at sweep time and at least the
retention window has passed since its last export; a second sweep over an
already-purged task changes nothing, and the per-task sweep is idempotent. -/
theorem c4_retention_sweep :
    (∀ (now : Rat) (t : HandinTask),
      (sweepTask now t).task.purged = true ∧ t.purged = false ∨
          (sweepTask now t).dirRemoved = true →
        t.is_active now = false ∧ keepSec ≤ now - t.last_handinget_ts) ∧
    (∀ (now : Rat) (t : HandinTask), t.purged = true → sweepTask now t = ⟨t, false, false⟩) ∧
    (∀ (now : Rat) (t : HandinTask),
      sweepTask now (sweepTask now t).task = ⟨(sweepTask now t).task, false, false⟩) := by
  refine ⟨?_, ?_, ?_⟩
  · intro now t h
    unfold sweepTask purge_task_archive at h
    split at h
    · rcases h with ⟨_, h2⟩ | h1 <;> simp_all
    · split at h
      · rcases h with ⟨_, _⟩ | h1 <;> simp_all
      · split at h
        · rcases h with ⟨_, _⟩ | h1 <;> simp_all
        · split at h
          · rename_i hpurged hlast hactive hkeep
            exact ⟨by simpa using hactive, hkeep⟩
          · rcases h with ⟨_, _⟩ | h1 <;> simp_all
  · intro now t h
    exact sweepTask_purged_noop now t h
  · intro now t
    rcases sweepTask_cases now t with h | h
    · rw [h]
      exact h
    · exact sweepTask_purged_noop now _ h

/-- Helper: the roster walk partitions the roster. -/
theorem missingSplit_length (roster : List (String × String)) (ids names : List String) :
    (missingSplit roster ids names).1.length + (missingSplit roster ids names).2 = roster.length := by
  unfold missingSplit
  simp only
  rw [← List.countP_eq_length_filter]
  have h := List.length_eq_countP_add_countP (handedBy ids names) roster
  have e : (fun a => decide ¬(handedBy ids names a = true)) = fun a => !handedBy ids names a := by
    funext a
    simp
  rw [e] at h
  omega

/-- C2: whenever `compute_missing` succeeds, every roster entry is counted
exactly once — the missing list's length plus the handed-in count equals the
roster total. -/
theorem c2_missing_partition (roster : List (String × String)) (files : List String)
    (hne : roster ≠ []) :
    (compute_missing roster files).ok = true ∧
    (compute_missing roster files).missing.length + (compute_missing roster files).stats.handed_in
      = (compute_missing roster files).stats.roster_total ∧
    (compute_missing roster files).stats.roster_total = roster.length := by
  unfold compute_missing
  rw [if_neg hne]
  exact ⟨rfl, missingSplit_length roster _ _, rfl⟩

/-- Helper: a list is a prefix of itself extended. -/
theorem isPref_append (pat r : List Char) : isPref pat (pat ++ r) = true := by
  induction pat with
  | nil => rfl
  | cons p ps ih => simpa [isPref] using ih

/-- Helper: `containsSub` finds a pattern that occurs anywhere. -/
theorem containsSub_append_pat (l₁ pat l₂ : List Char) :
    containsSub (l₁ ++ pat ++ l₂) pat = true := by
  induction l₁ with
  | nil =>
    cases pat with
    | nil =>
      cases l₂ with
      | nil => rfl
      | cons c cs => simp [containsSub, isPref]
    | cons p ps =>
      have : ((p :: ps) ++ l₂ : List Char) = p :: (ps ++ l₂) := rfl
      simp only [List.nil_append, this, containsSub]
      rw [show (p :: (ps ++ l₂) : List Char) = (p :: ps) ++ l₂ from rfl, isPref_append]
      simp
  | cons c cs ih =>
    simp only [List.cons_append, containsSub]
    rw [show ((cs.append pat).append l₂ : List Char) = cs ++ pat ++ l₂ from rfl, ih]
    simp

/-- Helper: a string occurs in itself prefixed by anything (`pyIn`). -/
theorem pyIn_append_self (pre fn : String) : pyIn fn (pre ++ fn) = true := by
  unfold pyIn
  rw [String.data_append]
  have h := containsSub_append_pat pre.data fn.data []
  rw [List.append_nil] at h
  exact h

/-- Helper: every listed entry occurs verbatim in its numbered line. -/
theorem numberedLines_cover (l : List String) (fn : String) (h : fn ∈ l) :
    ∃ line ∈ numberedLines l, pyIn fn line = true := by
  rw [List.mem_iff_get] at h
  obtain ⟨n, hn⟩ := h
  refine ⟨natRepr (n.1 + 1) ++ ". " ++ fn, ?_, ?_⟩
  · unfold numberedLines
    apply List.mem_map.mpr
    refine ⟨(n.1, fn), ?_, rfl⟩
    have hlen : n.1 < l.enum.length := by
      rw [List.enum_length]
      exact n.2
    have hget : l.enum[n.1] = (n.1, fn) := by
      rw [List.getElem_enum]
      have : l[n.1] = fn := by
        rw [← hn]
        simp [List.get_eq_getElem]
      rw [this]
    exact hget ▸ l.enum.getElem_mem hlen
  · have : (natRepr (n.1 + 1) ++ ". " ++ fn : String) = (natRepr (n.1 + 1) ++ ". ") ++ fn := by
      simp [String.append_assoc]
    rw [this]
    exact pyIn_append_self _ fn

/-- Helper: the degrade flag, spelled as `compute_missing` builds it, holds
exactly when at least one file was counted and the recognized fraction is
below one fifth. -/
theorem use_flag_iff (matched : Nat) (fileNames : List String) :
    (decide (0 < fileNames.length) && (decide (matched = 0) ||
        decide ((if fileNames ≠ [] then (matched : Rat) / (fileNames.length : Rat) else 1)
          < 1 / 5))) = true
    ↔ 0 < fileNames.length ∧ (matched : Rat) / (fileNames.length : Rat) < 1 / 5 := by
  by_cases hnil : fileNames = []
  · subst hnil
    simp
  · have hpos : 0 < fileNames.length := List.length_pos.mpr hnil
    simp only [hnil, if_pos, ne_eq, not_false_eq_true, if_true, Bool.and_eq_true,
      Bool.or_eq_true, decide_eq_true_eq]
    constructor
    · rintro ⟨_, h0 | h⟩
      · refine ⟨hpos, ?_⟩
        rw [h0]
        rw [Nat.cast_zero, zero_div]
        norm_num
      · exact ⟨hpos, h⟩
    · rintro ⟨_, h⟩
      exact ⟨hpos, Or.inr h⟩

/-- Helper: with the degrade flag set, the formatted report does not depend
on the missing list at all. -/
theorem format_lines_degrade_indep (task : HandinTask) (stats : MissingStats) (title : String)
    (h : stats.use_submitted_list = true) (missing missing' : List (String × String)) :
    format_missing_lines task missing stats title = format_missing_lines task missing' stats title := by
  unfold format_missing_lines
  simp only [h, if_true]

/-- Helper: with the degrade flag set, every displayed submitted filename
occurs verbatim in some line of the report. -/
theorem format_lines_degrade_cover (task : HandinTask) (stats : MissingStats) (title : String)
    (missing : List (String × String)) (h : stats.use_submitted_list = true) :
    ∀ fn ∈ stats.submitted_file_names.take 120,
      ∃ line ∈ format_missing_lines task missing stats title, pyIn fn line = true := by
  intro fn hfn
  have hne : stats.submitted_file_names ≠ [] := by
    intro hnil
    rw [hnil] at hfn
    simp at hfn
  obtain ⟨line, hline, hpy⟩ := numberedLines_cover _ fn hfn
  refine ⟨line, ?_, hpy⟩
  unfold format_missing_lines
  simp only [h, if_true, hne, ite_false]
  split
  · split <;> simp_all [List.mem_append]
  · split <;> simp_all [List.mem_append]

/-- C5: `compute_missing` sets the degrade flag `use_submitted_list` exactly
when at least one file was counted and the fraction of counted files with a
recognized roster name is below 20%; with zero counted files the flag stays
unset; and with the flag set the formatted report is the flat submitted-file
list — it contains every displayed submitted filename and is independent of
the roster missing-list. -/
theorem c5_low_recognition_degrade (roster : List (String × String)) (files : List String)
    (task : HandinTask) (title : String) (hne : roster ≠ []) :
    ((compute_missing roster files).stats.use_submitted_list = true ↔
      0 < (compute_missing roster files).stats.submitted_files_total ∧
        ((compute_missing roster files).stats.recognized_name_files : Rat) /
          ((compute_missing roster files).stats.submitted_files_total : Rat) < 1 / 5) ∧
    ((compute_missing roster files).stats.submitted_files_total = 0 →
      (compute_missing roster files).stats.use_submitted_list = false) ∧
    ((compute_missing roster files).stats.use_submitted_list = true →
      (∀ missing', format_missing_lines task (compute_missing roster files).missing
            (compute_missing roster files).stats title
          = format_missing_lines task missing' (compute_missing roster files).stats title) ∧
      ∀ fn ∈ (compute_missing roster files).stats.submitted_file_names.take 120,
        ∃ line ∈ format_missing_lines task (compute_missing roster files).missing
            (compute_missing roster files).stats title, pyIn fn line = true) := by
  have hiff : (compute_missing roster files).stats.use_submitted_list = true ↔
      0 < (compute_missing roster files).stats.submitted_files_total ∧
        ((compute_missing roster files).stats.recognized_name_files : Rat) /
          ((compute_missing roster files).stats.submitted_files_total : Rat) < 1 / 5 := by
    unfold compute_missing
    rw [if_neg hne]
    exact use_flag_iff _ _
  refine ⟨hiff, ?_, ?_⟩
  · intro h0
    by_contra huse
    rw [Bool.not_eq_false] at huse
    have h2 := hiff.mp huse
    omega
  · intro h
    exact ⟨fun missing' => format_lines_degrade_indep task _ title h _ missing',
           format_lines_degrade_cover task _ title _ h⟩

/-- Helper: full specification of the reminder while loop.  Starting at
`idx` with enough fuel, the loop (1) never rewinds the index, (2) emits one
reminder notification per advanced index, in index order with no gaps,
(3) only fires reminders whose timestamps have passed, and (4) stops at the
first unelapsed timestamp. -/
theorem fireRemindersAux_spec (now : Rat) (lst : List Rat) (cr : Int) (fuel : Nat) :
    ∀ idx, lst.length ≤ fuel + idx →
      idx ≤ (fireRemindersAux now lst cr fuel idx).1 ∧
      (fireRemindersAux now lst cr fuel idx).2
        = (List.range' idx ((fireRemindersAux now lst cr fuel idx).1 - idx)).map
            (Notif.reminder cr) ∧
      (∀ j, idx ≤ j → j < (fireRemindersAux now lst cr fuel idx).1 →
        ∃ hj : j < lst.length, lst.get ⟨j, hj⟩ ≤ now) ∧
      (∀ ts, lst.get? (fireRemindersAux now lst cr fuel idx).1 = some ts → ¬ts ≤ now) := by
  induction fuel with
  | zero =>
    intro idx hle
    refine ⟨Nat.le_refl _, by simp [fireRemindersAux], ?_, ?_⟩
    · intro j h1 h2
      simp [fireRemindersAux] at h2
      omega
    · intro ts hts
      simp only [fireRemindersAux] at hts
      rw [List.get?_eq_none.mpr (by omega)] at hts
      cases hts
  | succ fuel ih =>
    intro idx hle
    cases hget : lst.get? idx with
    | none =>
      have heq : fireRemindersAux now lst cr (fuel + 1) idx = (idx, []) := by
        simp [fireRemindersAux, ← List.get?_eq_getElem?, hget]
      rw [heq]
      refine ⟨Nat.le_refl _, by simp, ?_, ?_⟩
      · intro j h1 h2
        simp at h2
        omega
      · intro ts hts
        simp only at hts
        rw [hget] at hts
        cases hts
    | some ts =>
      obtain ⟨hidx, hval⟩ := List.get?_eq_some.mp hget
      by_cases hts : ts ≤ now
      · have heq : fireRemindersAux now lst cr (fuel + 1) idx
            = ((fireRemindersAux now lst cr fuel (idx + 1)).1,
               .reminder cr idx :: (fireRemindersAux now lst cr fuel (idx + 1)).2) := by
          simp [fireRemindersAux, ← List.get?_eq_getElem?, hget, hts]
        obtain ⟨ih1, ih2, ih3, ih4⟩ := ih (idx + 1) (by omega)
        rw [heq]
        refine ⟨by omega, ?_, ?_, ?_⟩
        · simp only
          rw [ih2]
          have hs : (fireRemindersAux now lst cr fuel (idx + 1)).1 - idx
              = ((fireRemindersAux now lst cr fuel (idx + 1)).1 - (idx + 1)) + 1 := by
            omega
          rw [hs, List.range'_succ]
          simp
        · intro j h1 h2
          rcases Nat.eq_or_lt_of_le h1 with rfl | hlt
          · exact ⟨hidx, by rw [hval]; exact hts⟩
          · exact ih3 j (by omega) (by simpa using h2)
        · simpa using ih4
      · have heq : fireRemindersAux now lst cr (fuel + 1) idx = (idx, []) := by
          simp [fireRemindersAux, ← List.get?_eq_getElem?, hget, hts]
        rw [heq]
        refine ⟨Nat.le_refl _, by simp, ?_, ?_⟩
        · intro j h1 h2
          simp at h2
          omega
        · intro ts' hts'
          simp only at hts'
          rw [hget] at hts'
          injection hts' with hts''
          rw [← hts'']
          exact hts

/-- Helper: the reminder loop emits no deadline notifications. -/
theorem fireRemindersAux_no_deadline (now : Rat) (lst : List Rat) (cr : Int) (fuel : Nat) :
    ∀ idx, countDeadlineNotifs (fireRemindersAux now lst cr fuel idx).2 = 0 := by
  induction fuel with
  | zero => intro idx; simp [fireRemindersAux, countDeadlineNotifs]
  | succ fuel ih =>
    intro idx
    cases hget : lst.get? idx with
    | none => simp [fireRemindersAux, ← List.get?_eq_getElem?, hget, countDeadlineNotifs]
    | some ts =>
      by_cases hts : ts ≤ now
      · simp [fireRemindersAux, ← List.get?_eq_getElem?, hget, hts, countDeadlineNotifs, List.countP_cons]
        have := ih (idx + 1)
        simpa [countDeadlineNotifs] using this
      · simp [fireRemindersAux, ← List.get?_eq_getElem?, hget, hts, countDeadlineNotifs]

/-- Helper: per-operation deadline accounting: an operation on a task that
already sent its deadline notice sends nothing and keeps the flag; any
operation sends at most one deadline notice; and sending one sets the flag. -/
theorem applyTaskOp_deadline_facts (t : HandinTask) (op : TaskOp) :
    (t.deadline_sent = true → countDeadlineNotifs (applyTaskOp t op).2 = 0 ∧
      (applyTaskOp t op).1.deadline_sent = true) ∧
    countDeadlineNotifs (applyTaskOp t op).2 ≤ 1 ∧
    (countDeadlineNotifs (applyTaskOp t op).2 = 1 → (applyTaskOp t op).1.deadline_sent = true) := by
  cases op with
  | cancelOp now uid =>
    by_cases hc : t.closed = true
    · simp [applyTaskOp, hc, countDeadlineNotifs]
    · rw [Bool.not_eq_true] at hc
      simp [applyTaskOp, hc, countDeadlineNotifs]
  | tick now =>
    by_cases hc : t.closed = true
    · simp [applyTaskOp, schedulerCheckTask, hc, countDeadlineNotifs]
    · rw [Bool.not_eq_true] at hc
      have hfr := fireRemindersAux_no_deadline now t.remind_ts_list t.creator_id
        t.remind_ts_list.length t.remind_sent_idx
      set fr := fireRemindersAux now t.remind_ts_list t.creator_id
        t.remind_ts_list.length t.remind_sent_idx with hfrdef
      have happ : applyTaskOp t (.tick now)
          = (if t.deadline_sent = false ∧ t.deadline_ts ≤ now
             then ({ { t with remind_sent_idx := fr.1 } with
                       deadline_sent := true, closed := true },
                   fr.2 ++ [Notif.deadlineNote t.creator_id])
             else ({ t with remind_sent_idx := fr.1 }, fr.2)) := by
        show schedulerCheckTask now t = _
        rw [schedulerCheckTask]
        simp only [hc, Bool.false_eq_true, if_false, ← hfrdef]
      rw [happ]
      by_cases hdl : t.deadline_sent = false ∧ t.deadline_ts ≤ now
      · rw [if_pos hdl]
        have hcnt : countDeadlineNotifs (fr.2 ++ [Notif.deadlineNote t.creator_id]) = 1 := by
          simp only [countDeadlineNotifs] at hfr ⊢
          rw [List.countP_append, hfr]
          rfl
        refine ⟨fun hsent => by rw [hsent] at hdl; exact absurd hdl.1 (by simp), ?_, ?_⟩
        · exact le_of_eq hcnt
        · intro _
          rfl
      · rw [if_neg hdl]
        refine ⟨fun hsent => ⟨hfr, by simp [hsent]⟩, ?_, ?_⟩
        · show countDeadlineNotifs fr.2 ≤ 1
          rw [hfr]
          exact Nat.zero_le 1
        · show countDeadlineNotifs fr.2 = 1 → _
          intro h1'
          rw [hfr] at h1'
          cases h1'

/-- Helper: over any sequence of operations, a task whose deadline notice is
already sent never sends another, and in general at most one deadline notice
is ever sent. -/
theorem runTaskOps_deadline_le_one (ops : List TaskOp) :
    ∀ t : HandinTask,
      (t.deadline_sent = true → countDeadlineNotifs (runTaskOps t ops).2 = 0) ∧
      countDeadlineNotifs (runTaskOps t ops).2 ≤ 1 := by
  induction ops with
  | nil => intro t; simp [runTaskOps, countDeadlineNotifs]
  | cons op ops ih =>
    intro t
    obtain ⟨hA, hB, hC⟩ := applyTaskOp_deadline_facts t op
    obtain ⟨ih1, ih2⟩ := ih (applyTaskOp t op).1
    have hcnt : countDeadlineNotifs (runTaskOps t (op :: ops)).2
        = countDeadlineNotifs (applyTaskOp t op).2
          + countDeadlineNotifs (runTaskOps (applyTaskOp t op).1 ops).2 := by
      simp only [runTaskOps, countDeadlineNotifs]
      rw [List.countP_append]
    constructor
    · intro hsent
      obtain ⟨h0, hkeep⟩ := hA hsent
      rw [hcnt, h0, ih1 hkeep]
    · rw [hcnt]
      rcases Nat.lt_or_ge (countDeadlineNotifs (applyTaskOp t op).2) 1 with h | h
      · omega
      · have h1 : countDeadlineNotifs (applyTaskOp t op).2 = 1 := by omega
        rw [h1, ih1 (hC h1)]

/-- C3: in a scheduler pass over a non-closed task (sorted reminder list,
index within bounds): all reminders whose timestamp has passed are fired in
index order starting at `remind_sent_idx` with no index skipped, each
advancing the index by one and addressed as a reminder notification; a
reminder fires exactly when its timestamp has passed; and the deadline notice
is sent at most once per pass — never again once `deadline_sent` is set, and
sending it closes the task — and at most once over the task's whole lifetime
of scheduler passes and cancellations. -/
theorem c3_scheduler_reminders_and_deadline :
    (∀ (now : Rat) (t : HandinTask), t.closed = false →
      t.remind_ts_list.Pairwise (· ≤ ·) →
      t.remind_sent_idx ≤ t.remind_ts_list.length →
      t.remind_sent_idx ≤ (schedulerCheckTask now t).1.remind_sent_idx ∧
      (schedulerCheckTask now t).1.remind_sent_idx ≤ t.remind_ts_list.length ∧
      (schedulerCheckTask now t).2
        = (List.range' t.remind_sent_idx
            ((schedulerCheckTask now t).1.remind_sent_idx - t.remind_sent_idx)).map
              (Notif.reminder t.creator_id)
          ++ (if t.deadline_sent = false ∧ t.deadline_ts ≤ now
              then [Notif.deadlineNote t.creator_id] else []) ∧
      (∀ j (hj : j < t.remind_ts_list.length), t.remind_sent_idx ≤ j →
        (t.remind_ts_list.get ⟨j, hj⟩ ≤ now
          ↔ j < (schedulerCheckTask now t).1.remind_sent_idx)) ∧
      countDeadlineNotifs (schedulerCheckTask now t).2 ≤ 1 ∧
      (t.deadline_sent = true → countDeadlineNotifs (schedulerCheckTask now t).2 = 0) ∧
      (countDeadlineNotifs (schedulerCheckTask now t).2 = 1 →
        (schedulerCheckTask now t).1.deadline_sent = true ∧
        (schedulerCheckTask now t).1.closed = true)) ∧
    (∀ (t : HandinTask) (ops : List TaskOp), countDeadlineNotifs (runTaskOps t ops).2 ≤ 1) := by
  constructor
  · intro now t hclosed hsorted hidx
    obtain ⟨h1, h2, h3, h4⟩ := fireRemindersAux_spec now t.remind_ts_list t.creator_id
      t.remind_ts_list.length t.remind_sent_idx (by omega)
    have hfr0 := fireRemindersAux_no_deadline now t.remind_ts_list t.creator_id
      t.remind_ts_list.length t.remind_sent_idx
    set fr := fireRemindersAux now t.remind_ts_list t.creator_id
      t.remind_ts_list.length t.remind_sent_idx with hfrdef
    have hklen : fr.1 ≤ t.remind_ts_list.length := by
      by_contra hgt
      push_neg at hgt
      rcases Nat.lt_or_ge t.remind_sent_idx fr.1 with hlt | hge
      · obtain ⟨hj, _⟩ := h3 (fr.1 - 1) (by omega) (by omega)
        omega
      · omega
    have hsched : schedulerCheckTask now t
        = (if t.deadline_sent = false ∧ t.deadline_ts ≤ now
           then ({ { t with remind_sent_idx := fr.1 } with
                     deadline_sent := true, closed := true },
                 fr.2 ++ [Notif.deadlineNote t.creator_id])
           else ({ t with remind_sent_idx := fr.1 }, fr.2)) := by
      rw [schedulerCheckTask]
      simp only [hclosed, Bool.false_eq_true, if_false, ← hfrdef]
    by_cases hdl : t.deadline_sent = false ∧ t.deadline_ts ≤ now
    · rw [hsched, if_pos hdl]
      simp only
      refine ⟨h1, hklen, ?_, ?_, ?_, ?_, ?_⟩
      · rw [h2, if_pos hdl]
      · intro j hj hge
        constructor
        · intro hle
          by_contra hnotlt
          push_neg at hnotlt
          rcases Nat.eq_or_lt_of_le hnotlt with rfl | hjgt
          · exact h4 _ (List.get?_eq_some.mpr ⟨hj, rfl⟩) hle
          · have hkj : fr.1 < t.remind_ts_list.length := by omega
            have hts_k := h4 (t.remind_ts_list.get ⟨fr.1, hkj⟩)
              (List.get?_eq_some.mpr ⟨hkj, rfl⟩)
            have hmono := List.pairwise_iff_get.mp hsorted ⟨fr.1, hkj⟩ ⟨j, hj⟩ hjgt
            exact hts_k (le_trans hmono hle)
        · intro hlt
          obtain ⟨hj', hle⟩ := h3 j hge hlt
          exact hle
      · show countDeadlineNotifs (fr.2 ++ [Notif.deadlineNote t.creator_id]) ≤ 1
        simp only [countDeadlineNotifs, List.countP_append] at hfr0 ⊢
        rw [hfr0]
        simp [List.countP_cons]
      · intro hsent
        rw [hsent] at hdl
        cases hdl.1
      · intro _
        simp
    · rw [hsched, if_neg hdl]
      simp only
      refine ⟨h1, hklen, ?_, ?_, ?_, ?_, ?_⟩
      · rw [h2, if_neg hdl]
        simp
      · intro j hj hge
        constructor
        · intro hle
          by_contra hnotlt
          push_neg at hnotlt
          rcases Nat.eq_or_lt_of_le hnotlt with rfl | hjgt
          · exact h4 _ (List.get?_eq_some.mpr ⟨hj, rfl⟩) hle
          · have hkj : fr.1 < t.remind_ts_list.length := by omega
            have hts_k := h4 (t.remind_ts_list.get ⟨fr.1, hkj⟩)
              (List.get?_eq_some.mpr ⟨hkj, rfl⟩)
            have hmono := List.pairwise_iff_get.mp hsorted ⟨fr.1, hkj⟩ ⟨j, hj⟩ hjgt
            exact hts_k (le_trans hmono hle)
        · intro hlt
          obtain ⟨hj', hle⟩ := h3 j hge hlt
          exact hle
      · rw [hfr0]
        omega
      · intro _
        exact hfr0
      · intro h1'
        rw [hfr0] at h1'
        cases h1'
  · intro t ops
    exact (runTaskOps_deadline_le_one ops t).2

/-! ## C1: duplicate-active-task rejection -/

/-- Helper: values after a dict update come from the new value or the old
dict. -/
theorem mem_storeValues_dictSet {x : HandinTask} (s : TaskStore) (k : String) (v : HandinTask)
    (h : x ∈ storeValues (dictSet s k v)) : x = v ∨ x ∈ storeValues s := by
  induction s with
  | nil =>
    simp [dictSet, storeValues] at h
    exact Or.inl h
  | cons kv rest ih =>
    by_cases hk : kv.1 = k
    · simp only [dictSet, hk, if_pos] at h
      simp only [storeValues, List.map_cons, List.mem_cons] at h
      rcases h with h | h
      · exact Or.inl h
      · exact Or.inr (by simp [storeValues, List.mem_cons]; exact Or.inr (by simpa [storeValues] using h))
    · rw [show dictSet (kv :: rest) k v = kv :: dictSet rest k v from by
        simp [dictSet, hk]] at h
      simp only [storeValues, List.map_cons, List.mem_cons] at h
      rcases h with h | h
      · exact Or.inr (by simp [storeValues, h])
      · rcases ih (by simpa [storeValues] using h) with h' | h'
        · exact Or.inl h'
        · exact Or.inr (by simp [storeValues] at h' ⊢; exact Or.inr h')

/-- Helper: a task inactive now stays inactive at any later time (`closed`
and `deadline_ts` are fixed in this comparison). -/
theorem is_active_mono (t : HandinTask) (now τ : Rat) (hle : now ≤ τ)
    (hna : t.is_active now = false) : t.is_active τ = false := by
  unfold HandinTask.is_active at hna ⊢
  by_cases hc : t.closed
  · simp [hc]
  · simp [hc] at hna ⊢
    linarith

/-- C1: `create_task` with valid arguments fails with the duplicate-task
error and leaves the table unchanged whenever a stored task with the same
group and name is active at call time; with no such active duplicate it
succeeds and inserts the new task; and a successful call preserves the
at-most-one-active-task-per-`(group, name)` invariant for all times from the
call on. -/
theorem c1_duplicate_active_task :
    (∀ (store : TaskStore) (now : Rat) (gid cid : Int) (name : String)
        (rlist : List Rat) (dts : Rat),
      pyStrip name ≠ "" → pyIn " " (pyStrip name) = false →
      ((sortedDedup rlist).getLast?.any fun lastR => decide (dts ≤ lastR)) = false →
      ((storeValues store).any fun t =>
        t.group_id = gid && t.name = pyStrip name && t.is_active now) = true →
      create_task store now gid cid name rlist (some dts)
        = ⟨false, "任务已存在：" ++ pyStrip name ++ "（该群内同名任务尚未截止）", store⟩) ∧
    (∀ (store : TaskStore) (now : Rat) (gid cid : Int) (name : String)
        (rlist : List Rat) (dts : Rat),
      pyStrip name ≠ "" → pyIn " " (pyStrip name) = false →
      ((sortedDedup rlist).getLast?.any fun lastR => decide (dts ≤ lastR)) = false →
      ((storeValues store).any fun t =>
        t.group_id = gid && t.name = pyStrip name && t.is_active now) = false →
      (create_task store now gid cid name rlist (some dts)).ok = true ∧
      (create_task store now gid cid name rlist (some dts)).store
        = dictSet store (taskId gid (pyStrip name) (pyInt now))
            { task_id := taskId gid (pyStrip name) (pyInt now), group_id := gid,
              creator_id := cid, name := pyStrip name, created_ts := now,
              remind_ts_list := sortedDedup rlist, remind_sent_idx := 0,
              deadline_ts := dts }) ∧
    (∀ (store : TaskStore) (now : Rat) (gid cid : Int) (name : String)
        (rlist : List Rat) (dl : Option Rat),
      ActiveUniqueFrom store now →
      (create_task store now gid cid name rlist dl).ok = true →
      ActiveUniqueFrom (create_task store now gid cid name rlist dl).store now) := by
  refine ⟨?_, ?_, ?_⟩
  · intro store now gid cid name rlist dts hne hsp hrem hdup
    unfold create_task
    rw [if_neg (by push_neg; exact ⟨hne, by simp [hsp]⟩)]
    simp only
    rw [if_neg (by simp [hrem]), if_pos (by simp [hdup])]
  · intro store now gid cid name rlist dts hne hsp hrem hdup
    unfold create_task
    rw [if_neg (by push_neg; exact ⟨hne, by simp [hsp]⟩)]
    simp only
    rw [if_neg (by simp [hrem]), if_neg (by simp [hdup])]
    exact ⟨rfl, rfl⟩
  · intro store now gid cid name rlist dl hinv hok
    by_cases hname : pyStrip name = "" ∨ pyIn " " (pyStrip name) = true
    · exfalso
      unfold create_task at hok
      rw [if_pos hname] at hok
      simp at hok
    · cases dl with
      | none =>
        exfalso
        unfold create_task at hok
        rw [if_neg hname] at hok
        simp at hok
      | some dts =>
        by_cases hrem : ((sortedDedup rlist).getLast?.any fun lastR => decide (dts ≤ lastR)) = true
        · exfalso
          unfold create_task at hok
          rw [if_neg hname] at hok
          simp [hrem] at hok
        · by_cases hdup : ((storeValues store).any fun t =>
              decide (t.group_id = gid) && decide (t.name = pyStrip name) && t.is_active now) = true
          · exfalso
            unfold create_task at hok
            rw [if_neg hname] at hok
            simp [hrem, hdup] at hok
          · have hres : (create_task store now gid cid name rlist (some dts)).store
                = dictSet store (taskId gid (pyStrip name) (pyInt now))
                    { task_id := taskId gid (pyStrip name) (pyInt now), group_id := gid,
                      creator_id := cid, name := pyStrip name, created_ts := now,
                      remind_ts_list := sortedDedup rlist, remind_sent_idx := 0,
                      deadline_ts := dts } := by
              unfold create_task
              rw [if_neg hname]
              simp [hrem, hdup]
            rw [hres]
            intro τ hτ a ha b hb hg hn hact_a hact_b
            rw [Bool.not_eq_true] at hdup
            have hkey : ∀ t ∈ storeValues store,
                t.group_id = gid → t.name = pyStrip name → t.is_active now = false := by
              intro t ht h1 h2
              have := List.any_eq_false.mp hdup t ht
              simp [h1, h2] at this
              exact this
            rcases mem_storeValues_dictSet _ _ _ ha with ha' | ha' <;>
              rcases mem_storeValues_dictSet _ _ _ hb with hb' | hb'
            · rw [ha', hb']
            · exfalso
              subst ha'
              have hbg : b.group_id = gid := by rw [← hg]
              have hbn : b.name = pyStrip name := by rw [← hn]
              have := is_active_mono b now τ hτ (hkey b hb' hbg hbn)
              rw [this] at hact_b
              cases hact_b
            · exfalso
              subst hb'
              have hag : a.group_id = gid := by rw [hg]
              have han : a.name = pyStrip name := by rw [hn]
              have := is_active_mono a now τ hτ (hkey a ha' hag han)
              rw [this] at hact_a
              cases hact_a
            · exact hinv τ hτ a ha' b hb' hg hn hact_a hact_b

/-! ## C8: task-id construction -/

/-- Helper: digit characters are digits. -/
theorem isDigit_digitChar (d : Nat) (h : d < 10) : isDigit (digitChar d) = true := by
  interval_cases d <;> decide

/-- Helper: `dval` inverts `digitChar` below 10. -/
theorem dval_digitChar (d : Nat) (h : d < 10) : dval (digitChar d) = d := by
  interval_cases d <;> decide

/-- Helper: decimal renderings are never empty. -/
theorem natReprCore_ne_nil (fuel n : Nat) : natReprCore fuel n ≠ [] := by
  cases fuel with
  | zero => simp [natReprCore]
  | succ fuel =>
    rw [natReprCore]
    split
    · simp
    · simp

/-- Helper: decimal renderings consist of digit characters. -/
theorem natReprCore_digits (fuel : Nat) : ∀ n, n ≤ fuel →
    ∀ c ∈ natReprCore fuel n, isDigit c = true := by
  induction fuel with
  | zero =>
    intro n hn c hc
    simp [natReprCore] at hc
    rw [hc]
    exact isDigit_digitChar n (by omega)
  | succ fuel ih =>
    intro n hn c hc
    rw [natReprCore] at hc
    split at hc
    · rename_i h
      simp at hc
      rw [hc]
      exact isDigit_digitChar n h
    · rename_i h
      rw [List.mem_append] at hc
      rcases hc with hc | hc
      · exact ih (n / 10) (by omega) c hc
      · simp at hc
        rw [hc]
        exact isDigit_digitChar (n % 10) (Nat.mod_lt n (by omega))

/-- Helper: the value of a rendering with one digit appended. -/
theorem digitsVal_append_single (l : List Char) (c : Char) :
    digitsVal (l ++ [c]) = 10 * digitsVal l + dval c := by
  unfold digitsVal
  rw [List.foldl_append]
  rfl

/-- Helper: reading a decimal rendering back yields the number. -/
theorem digitsVal_natReprCore (fuel : Nat) : ∀ n, n ≤ fuel →
    digitsVal (natReprCore fuel n) = n := by
  induction fuel with
  | zero =>
    intro n hn
    have : n = 0 := by omega
    rw [this]
    decide
  | succ fuel ih =>
    intro n hn
    rw [natReprCore]
    split
    · rename_i h
      show digitsVal [digitChar n] = n
      unfold digitsVal
      simp [dval_digitChar n h]
    · rename_i h
      rw [digitsVal_append_single, ih (n / 10) (by omega),
        dval_digitChar (n % 10) (Nat.mod_lt n (by omega))]
      omega

/-- Helper: decimal rendering of naturals is injective. -/
theorem natRepr_inj {a b : Nat} (h : natRepr a = natRepr b) : a = b := by
  have hd : natReprCore a a = natReprCore b b := congrArg String.data h
  have := digitsVal_natReprCore a a (Nat.le_refl a)
  rw [hd, digitsVal_natReprCore b b (Nat.le_refl b)] at this
  omega

/-- Helper: digit characters are not colons or minus signs. -/
theorem isDigit_ne_colon {c : Char} (h : isDigit c = true) : c ≠ ':' := by
  intro hc
  rw [hc] at h
  exact absurd h (by decide)

/-- Helper: integer renderings contain no colon. -/
theorem intRepr_no_colon (i : Int) : ∀ c ∈ (intRepr i).data, c ≠ ':' := by
  unfold intRepr
  split
  · intro c hc
    rw [String.data_append] at hc
    rcases (List.mem_append.mp hc) with hc | hc
    · simp at hc
      rw [hc]
      decide
    · exact isDigit_ne_colon (natReprCore_digits _ _ (Nat.le_refl _) c hc)
  · intro c hc
    exact isDigit_ne_colon (natReprCore_digits _ _ (Nat.le_refl _) c hc)

/-- Helper: integer rendering is injective. -/
theorem intRepr_inj {i j : Int} (h : intRepr i = intRepr j) : i = j := by
  unfold intRepr at h
  by_cases hi : i < 0 <;> by_cases hj : j < 0
  · rw [if_pos hi, if_pos hj] at h
    have hd := congrArg String.data h
    rw [String.data_append, String.data_append] at hd
    have habs : natReprCore i.natAbs i.natAbs = natReprCore j.natAbs j.natAbs := by
      have : ("-" : String).data = ['-'] := rfl
      rw [this] at hd
      simpa using hd
    have hv := digitsVal_natReprCore i.natAbs i.natAbs (Nat.le_refl _)
    rw [habs, digitsVal_natReprCore j.natAbs j.natAbs (Nat.le_refl _)] at hv
    omega
  · exfalso
    rw [if_pos hi, if_neg hj] at h
    have hd := congrArg String.data h
    rw [String.data_append] at hd
    cases hcons : natReprCore j.natAbs j.natAbs with
    | nil => exact natReprCore_ne_nil _ _ hcons
    | cons c rest =>
      have hdd : (natRepr j.natAbs).data = natReprCore j.natAbs j.natAbs := rfl
      rw [hdd, hcons] at hd
      have hc : '-' = c := by
        have hm : ("-" : String).data = ['-'] := rfl
        rw [hm] at hd
        exact (List.cons.injEq _ _ _ _ ▸ hd).1
      have : isDigit c = true := natReprCore_digits _ _ (Nat.le_refl _) c
        (by rw [hcons]; exact List.mem_cons_self _ _)
      rw [← hc] at this
      exact absurd this (by decide)
  · exfalso
    rw [if_neg hi, if_pos hj] at h
    have hd := congrArg String.data h
    rw [String.data_append] at hd
    cases hcons : natReprCore i.natAbs i.natAbs with
    | nil => exact natReprCore_ne_nil _ _ hcons
    | cons c rest =>
      have hdd : (natRepr i.natAbs).data = natReprCore i.natAbs i.natAbs := rfl
      rw [hdd, hcons] at hd
      have hc : c = '-' := by
        have hm : ("-" : String).data = ['-'] := rfl
        rw [hm] at hd
        exact (List.cons.injEq _ _ _ _ ▸ hd).1
      have : isDigit c = true := natReprCore_digits _ _ (Nat.le_refl _) c
        (by rw [hcons]; exact List.mem_cons_self _ _)
      rw [hc] at this
      exact absurd this (by decide)
  · rw [if_neg hi, if_neg hj] at h
    have := natRepr_inj h
    omega

/-- Helper: splitting concatenations at the first colon. -/
theorem colon_split : ∀ (a b r₁ r₂ : List Char), (∀ c ∈ a, c ≠ ':') → (∀ c ∈ b, c ≠ ':') →
    a ++ ':' :: r₁ = b ++ ':' :: r₂ → a = b ∧ r₁ = r₂ := by
  intro a
  induction a with
  | nil =>
    intro b r₁ r₂ ha hb h
    cases b with
    | nil =>
      simp at h
      exact ⟨rfl, h⟩
    | cons x xs =>
      rw [List.nil_append, List.cons_append] at h
      have hx := (List.cons.injEq _ _ _ _ ▸ h).1
      exact absurd hx.symm (hb x (List.mem_cons_self _ _))
  | cons y ys ih =>
    intro b r₁ r₂ ha hb h
    cases b with
    | nil =>
      rw [List.nil_append, List.cons_append] at h
      have hy := (List.cons.injEq _ _ _ _ ▸ h).1
      exact absurd hy (ha y (List.mem_cons_self _ _))
    | cons x xs =>
      rw [List.cons_append, List.cons_append] at h
      have hinj := List.cons.injEq _ _ _ _ ▸ h
      obtain ⟨h1, h2⟩ := hinj
      obtain ⟨h3, h4⟩ := ih xs r₁ r₂ (fun c hc => ha c (List.mem_cons_of_mem _ hc))
        (fun c hc => hb c (List.mem_cons_of_mem _ hc)) h2
      exact ⟨by rw [h1, h3], h4⟩

/-- Helper: the task id `group:name:second` decomposes uniquely — the group
and second renderings contain no colon, so the first and last colons of the
id are unambiguous even when the task name itself contains colons. -/
theorem taskId_inj (g g' s s' : Int) (n n' : String)
    (h : taskId g n s = taskId g' n' s') : g = g' ∧ n = n' ∧ s = s' := by
  unfold taskId at h
  have hd := congrArg String.data h
  simp only [String.data_append] at hd
  simp only [List.append_assoc, List.singleton_append] at hd
  obtain ⟨h1, h2⟩ := colon_split _ _ _ _ (intRepr_no_colon g) (intRepr_no_colon g') hd
  have hg : g = g' := intRepr_inj (String.ext h1)
  have h2r := congrArg List.reverse h2
  simp only [List.append_eq, List.reverse_append, List.reverse_cons, List.append_assoc,
    List.singleton_append] at h2r
  obtain ⟨h3, h4⟩ := colon_split _ _ _ _
    (fun c hc => intRepr_no_colon s c (List.mem_reverse.mp hc))
    (fun c hc => intRepr_no_colon s' c (List.mem_reverse.mp hc)) h2r
  have hs : s = s' := intRepr_inj (String.ext (List.reverse_injective h3))
  have hn : n = n' := String.ext (List.reverse_injective h4)
  exact ⟨hg, hn, hs⟩

/-- Helper: a successful `create_task` stores the new task under the id
built from the group, the stripped name and the whole-second creation time. -/
theorem create_task_ok_shape (store : TaskStore) (now : Rat) (gid cid : Int)
    (name : String) (rlist : List Rat) (dl : Option Rat)
    (hok : (create_task store now gid cid name rlist dl).ok = true) :
    ∃ dts, dl = some dts ∧
      (create_task store now gid cid name rlist dl).store
        = dictSet store (taskId gid (pyStrip name) (pyInt now))
            { task_id := taskId gid (pyStrip name) (pyInt now), group_id := gid,
              creator_id := cid, name := pyStrip name, created_ts := now,
              remind_ts_list := sortedDedup rlist, remind_sent_idx := 0,
              deadline_ts := dts } := by
  by_cases hname : pyStrip name = "" ∨ pyIn " " (pyStrip name) = true
  · exfalso
    unfold create_task at hok
    rw [if_pos hname] at hok
    simp at hok
  · cases dl with
    | none =>
      exfalso
      unfold create_task at hok
      rw [if_neg hname] at hok
      simp at hok
    | some dts =>
      by_cases hrem : ((sortedDedup rlist).getLast?.any fun lastR => decide (dts ≤ lastR)) = true
      · exfalso
        unfold create_task at hok
        rw [if_neg hname] at hok
        simp [hrem] at hok
      · by_cases hdup : ((storeValues store).any fun t =>
            decide (t.group_id = gid) && decide (t.name = pyStrip name) && t.is_active now) = true
        · exfalso
          unfold create_task at hok
          rw [if_neg hname] at hok
          simp [hrem, hdup] at hok
        · refine ⟨dts, rfl, ?_⟩
          unfold create_task
          rw [if_neg hname]
          simp [hrem, hdup]

/-- C8 (amended): `create_task` stores every new task under the id
`group:name:second`; this id determines the group, the name and the creation
second (so ids of tasks created in different seconds, in different groups, or
under different names always differ).  Reuse remains possible exactly when an
earlier same-named task of the same group was closed and re-created within
the same whole second — the counterexample shows the id is then reused and
the old record overwritten. -/
theorem c8_task_id_unique_amended :
    (∀ (g : Int) (n : String) (s : Int) (g' : Int) (n' : String) (s' : Int),
      taskId g n s = taskId g' n' s' → g = g' ∧ n = n' ∧ s = s') ∧
    (∀ (store : TaskStore) (now : Rat) (gid cid : Int) (name : String)
        (rlist : List Rat) (dl : Option Rat),
      (create_task store now gid cid name rlist dl).ok = true →
      ∃ task : HandinTask, task.task_id = taskId gid (pyStrip name) (pyInt now) ∧
        (create_task store now gid cid name rlist dl).store
          = dictSet store (taskId gid (pyStrip name) (pyInt now)) task) := by
  constructor
  · intro g n s g' n' s' h
    exact taskId_inj g g' s s' n n' h
  · intro store now gid cid name rlist dl hok
    obtain ⟨dts, hdl, hstore⟩ := create_task_ok_shape store now gid cid name rlist dl hok
    exact ⟨_, rfl, hstore⟩

/-- C7: in a group conversation, when the group upload fails with a
transient-classified detail on the first and second attempts and succeeds on
the third (the configured backoff sequence allows exactly two retries), the
result is Sent (`some true`) carrying the "succeeded after retry" annotation,
with no private fallback attempted; and a first failure whose detail is not
transient-classified is never retried — the channel try returns after that
single attempt. -/
theorem c7_transient_retry_then_success :
    (∀ (r1 r2 r3 : Resp) (rest priv : List (Option Resp)) (gid : Int) (path : String),
      respOk r1 = false → is_retryable_fail (respDetail r1) = true →
      respOk r2 = false → is_retryable_fail (respDetail r2) = true →
      respOk r3 = true →
      send_file "group" (some gid) path ⟨some r1 :: some r2 :: some r3 :: rest, priv⟩
        = ((some true, "（已自动重试后成功）"), ⟨rest, priv⟩)) ∧
    (∀ (r1 : Resp) (rest : List (Option Resp)),
      respOk r1 = false → is_retryable_fail (respDetail r1) = false →
      tryChannelSend (some r1 :: rest) = ((some false, respDetail r1), rest)) := by
  constructor
  · intro r1 r2 r3 rest priv gid path hok1 hr1 hok2 hr2 hok3
    unfold send_file
    rw [if_pos ⟨rfl, by simp⟩]
    simp only [tryChannelSend, nextResp, hok1, Bool.false_eq_true, if_false, pyRetry, hr1,
      Bool.not_true, SEND_RETRY_DELAYS, retryAux, hok2, hr2, hok3, if_true]
  · intro r1 rest hok1 hr1
    simp only [tryChannelSend, nextResp, hok1, Bool.false_eq_true, if_false, pyRetry, hr1,
      Bool.not_false, if_true]

/-- C8 counterexample: the original claim — a `task_id` is globally unique
and never reused, differing from every task ever created before — fails.  In
group 1, task `a` is created at second 100 (id `1:a:100`), cancelled, and
created again within the same second: the second create succeeds and assigns
the same id `1:a:100`, overwriting the first task's record (the store still
holds a single entry, now with the new deadline). -/
theorem c8_task_id_reuse_counterexample :
    (create_task [] 100 1 9 "a" [] (some 200)).ok = true ∧
    (dictGet (create_task [] 100 1 9 "a" [] (some 200)).store "1:a:100").isSome = true ∧
    (cancel_task (create_task [] 100 1 9 "a" [] (some 200)).store 100 "1:a:100" 9).ok = true ∧
    (create_task
      (cancel_task (create_task [] 100 1 9 "a" [] (some 200)).store 100 "1:a:100" 9).store
      100 1 9 "a" [] (some 300)).ok = true ∧
    (∃ t, dictGet (create_task
        (cancel_task (create_task [] 100 1 9 "a" [] (some 200)).store 100 "1:a:100" 9).store
        100 1 9 "a" [] (some 300)).store "1:a:100" = some t ∧ t.deadline_ts = 300) ∧
    (create_task
      (cancel_task (create_task [] 100 1 9 "a" [] (some 200)).store 100 "1:a:100" 9).store
      100 1 9 "a" [] (some 300)).store.length = 1 := by
  refine ⟨?_, ?_, ?_, ?_, ?_, ?_⟩ <;> decide

/-! ## C9: abort tokens across pending modes -/

/-- C9 counterexample: `0` is not a universal abort token.  With an
overwrite confirmation pending (and one queued file), a reply of `0` is
rejected with the Y/N format prompt and the pending overwrite remains —
the operation is not aborted.  The same happens for `cancel`. -/
theorem c9_abort_token_counterexample :
    (handle_private_overwrite_yesno [] 0 [] ⟨false, "", none, "ERR"⟩
        { files := [⟨"/tmp/f", "f", 0⟩], overwrite := some ⟨"1:a:100", "/tmp/f", "f", 0⟩ } "0"
      = ⟨true, { files := [⟨"/tmp/f", "f", 0⟩], overwrite := some ⟨"1:a:100", "/tmp/f", "f", 0⟩ },
          [], ["请输入 Y 或 N（不区分大小写）。"], []⟩) ∧
    (handle_private_overwrite_yesno [] 0 [] ⟨false, "", none, "ERR"⟩
        { files := [⟨"/tmp/f", "f", 0⟩], overwrite := some ⟨"1:a:100", "/tmp/f", "f", 0⟩ }
        "cancel").state.overwrite.isSome = true := by
  constructor <;> decide

/-- C9 (amended): `0` aborts the pending operation in the awaiting-done
batch mode, in the awaiting-zip-name mode, and in the task-choice modes
`submit`, `check`, `getzip` and `cancel`; in the awaiting-submitter-name
mode `0` skips the naming step and continues to task selection; it does not
abort the overwrite confirmation (only Y/N is accepted there; `0` and
`cancel` get a format prompt) nor the task-choice `status` mode (rejected as
an invalid index).  `cancel` is an abort token only in the awaiting-zip-name
mode, in the forms `0`/`取消`/`/cancel`/`／cancel` — the bare word `cancel`
is not an abort token anywhere. -/
theorem c9_abort_tokens_amended :
    -- overwrite confirmation: 0 and cancel are rejected, state unchanged
    (∀ (store : TaskStore) (now : Rat) (tasks : List HandinTask) (mr : MoveRes)
        (st : SessState) (text : String), st.overwrite.isSome = true →
      text = "0" ∨ text = "cancel" →
      handle_private_overwrite_yesno store now tasks mr st text
        = ⟨true, st, store, ["请输入 Y 或 N（不区分大小写）。"], []⟩) ∧
    -- awaiting-done batch collection: 0 deletes all queued files and clears
    (∀ (store : TaskStore) (now : Rat) (env : ChoiceEnv) (st : SessState) (pend : ChoosePend),
      st.choose = some pend → pend.mode = "submit" → st.overwrite = none →
      st.waitDone = true → st.files ≠ [] →
      handle_private_number_choice store now env st "0"
        = ⟨true, { st with files := [], waitDone := false, zipName := none
                           nameInput := false, choose := none },
            store, ["已取消并删除全部临时文件。"], st.files.map (·.path)⟩) ∧
    -- task-choice submit: 0 deletes the queue head and clears the pending state
    (∀ (store : TaskStore) (now : Rat) (env : ChoiceEnv) (st : SessState) (pend : ChoosePend)
        (it : InboxItem) (restq : List InboxItem),
      st.choose = some pend → pend.mode = "submit" → st.overwrite = none →
      st.waitDone = false → st.files = it :: restq →
      handle_private_number_choice store now env st "0"
        = ⟨true, { st with files := restq, waitDone := false, zipName := none
                           nameInput := false, choose := none },
            store, ["已取消并删除临时文件。"], [it.path]⟩) ∧
    -- task-choice check: 0 cancels the operation
    (∀ (store : TaskStore) (now : Rat) (env : ChoiceEnv) (st : SessState) (pend : ChoosePend),
      st.choose = some pend → pend.mode = "check" →
      handle_private_number_choice store now env st "0"
        = ⟨true, { st with choose := none }, store, ["已取消操作。"], []⟩) ∧
    -- task-choice getzip: 0 cancels the operation
    (∀ (store : TaskStore) (now : Rat) (env : ChoiceEnv) (st : SessState) (pend : ChoosePend),
      st.choose = some pend → pend.mode = "getzip" →
      handle_private_number_choice store now env st "0"
        = ⟨true, { st with choose := none }, store, ["已取消操作。"], []⟩) ∧
    -- task-choice cancel (its own handler): 0 cancels the operation
    (∀ (store : TaskStore) (now : Rat) (st : SessState) (pend : ChoosePend)
        (scene : String) (cg : Option Int) (uid level : Int),
      st.choose = some pend → pend.mode = "cancel" → pend.group_id = none →
      handle_cancel_number_choice store now st "0" scene cg uid level
        = ⟨true, { st with choose := none }, store, ["已取消操作。"], []⟩) ∧
    -- awaiting-zip-name: all four cancel tokens abort and delete the queue
    (∀ (store : TaskStore) (now : Rat) (tasks : List HandinTask) (uid : Int)
        (zOk : Bool) (zMsg : String) (zPacked zMissing : Nat) (outName : String)
        (st : SessState) (pend : ZipPend) (text : String),
      st.zipName = some pend → st.overwrite = none →
      text = "0" ∨ text = "取消" ∨ text = "/cancel" ∨ text = "／cancel" →
      handle_private_zip_name_input store now tasks uid zOk zMsg zPacked zMissing outName st text
        = ⟨true, { st with files := [], waitDone := false, zipName := none
                           nameInput := false, choose := none },
            store, ["已取消并删除全部临时文件。"], st.files.map (·.path)⟩) ∧
    -- task-choice status: 0 is rejected as an invalid index, nothing aborted
    (∀ (store : TaskStore) (now : Rat) (env : ChoiceEnv) (st : SessState) (pend : ChoosePend),
      st.choose = some pend → pend.mode = "status" →
      handle_private_number_choice store now env st "0"
        = ⟨true, st, store, ["序号无效，请重新回复数字。"], []⟩) ∧
    -- awaiting-submitter-name: 0 skips the name step and proceeds
    (∀ (store : TaskStore) (now : Rat) (tasks : List HandinTask)
        (rOk : Bool) (rMsg : String) (rHead it : InboxItem) (st : SessState),
      st.nameInput = true → st.overwrite = none → st.files = [it] → tasks ≠ [] →
      handle_private_name_input store now tasks rOk rMsg rHead st "0"
        = ⟨true, { st with nameInput := false, waitDone := false, zipName := none
                           choose := some ⟨"submit", tasks.map (·.task_id), now, none⟩ },
            store, [handin_tasks_list_text tasks], []⟩) := by
  refine ⟨?_, ?_, ?_, ?_, ?_, ?_, ?_, ?_, ?_⟩
  · intro store now tasks mr st text hov htext
    rcases hov' : st.overwrite with _ | pend
    · rw [hov'] at hov
      cases hov
    · unfold handle_private_overwrite_yesno
      rw [hov']
      rcases htext with rfl | rfl
      · rfl
      · rfl
  · intro store now env st pend hch hmode hov hwd hne
    simp only [handle_private_number_choice, hch, hmode, hov]
    rw [if_neg hne, if_pos hwd]
    rfl
  · intro store now env st pend it restq hch hmode hov hwd hq
    simp only [handle_private_number_choice, hch, hmode, hov, hwd, hq]
    rfl
  · intro store now env st pend hch hmode
    simp only [handle_private_number_choice, hch, hmode]
    rfl
  · intro store now env st pend hch hmode
    simp only [handle_private_number_choice, hch, hmode]
    rfl
  · intro store now st pend scene cg uid level hch hmode hgid
    simp only [handle_cancel_number_choice, hch, hmode, hgid]
    rfl
  · intro store now tasks uid zOk zMsg zPacked zMissing outName st pend text hzip hov htext
    rcases htext with rfl | rfl | rfl | rfl <;>
      · simp only [handle_private_zip_name_input, hzip, hov]
        rfl
  · intro store now env st pend hch hmode
    simp only [handle_private_number_choice, hch, hmode]
    rfl
  · intro store now tasks rOk rMsg rHead it st hni hov hq htasks
    simp only [handle_private_name_input, hni, hov, hq, if_neg htasks]
    rfl

/-! # Witnesses -/

/-- Witness for C1: with an active task `a` in group 1, creating another `a`
at time 100 is rejected; on an empty store the same call succeeds. -/
theorem c1_duplicate_active_task_witness :
    (create_task [("1:a:50", wTaskA)] 100 1 2 "a" [] (some 300)).ok = false ∧
    (create_task [] 100 1 2 "a" [] (some 300)).ok = true := by
  constructor
  · have h := c1_duplicate_active_task.1 [("1:a:50", wTaskA)] 100 1 2 "a" [] 300
      (by decide) (by decide) (by decide) (by decide)
    rw [h]
  · exact (c1_duplicate_active_task.2.1 [] 100 1 2 "a" [] 300
      (by decide) (by decide) (by decide) (by decide)).1

/-- Witness for C2: a one-entry roster with one submitted file. -/
theorem c2_missing_partition_witness :
    (compute_missing [("U202412345", "张三")] ["张三-U202412345.docx"]).ok = true ∧
    (compute_missing [("U202412345", "张三")] ["张三-U202412345.docx"]).missing.length
        + (compute_missing [("U202412345", "张三")] ["张三-U202412345.docx"]).stats.handed_in
      = (compute_missing [("U202412345", "张三")] ["张三-U202412345.docx"]).stats.roster_total ∧
    (compute_missing [("U202412345", "张三")] ["张三-U202412345.docx"]).stats.roster_total
      = [("U202412345", "张三")].length :=
  c2_missing_partition [("U202412345", "张三")] ["张三-U202412345.docx"] (by decide)

/-- Witness for C3: a pass at time 15 over the two-reminder task, and a
two-pass run. -/
theorem c3_scheduler_witness :
    (schedulerCheckTask 15 wTaskB).1.remind_sent_idx ≤ wTaskB.remind_ts_list.length ∧
    countDeadlineNotifs (runTaskOps wTaskB [.tick 15, .tick 300]).2 ≤ 1 :=
  ⟨(c3_scheduler_reminders_and_deadline.1 15 wTaskB (by decide) (by decide) (by decide)).2.1,
   c3_scheduler_reminders_and_deadline.2 wTaskB [.tick 15, .tick 300]⟩

/-- Witness for C4: the sweep purging an expired exported task implies the
purge conditions held. -/
theorem c4_retention_sweep_witness :
    wTaskC.is_active 2592100 = false ∧ keepSec ≤ (2592100 : Rat) - wTaskC.last_handinget_ts :=
  c4_retention_sweep.1 2592100 wTaskC (Or.inr (by
    unfold sweepTask wTaskC
    rw [if_neg (by simp), if_neg (by norm_num), if_neg (by simp [HandinTask.is_active]),
      if_pos (by unfold keepSec; norm_num)]))

/-- Witness for C5: one unrecognizable submitted file degrades the report. -/
theorem c5_low_recognition_degrade_witness :
    (compute_missing [("U202412345", "张三")] ["x.pdf"]).stats.use_submitted_list = true ↔
      0 < (compute_missing [("U202412345", "张三")] ["x.pdf"]).stats.submitted_files_total ∧
        ((compute_missing [("U202412345", "张三")] ["x.pdf"]).stats.recognized_name_files : Rat) /
          ((compute_missing [("U202412345", "张三")] ["x.pdf"]).stats.submitted_files_total : Rat)
          < 1 / 5 :=
  (c5_low_recognition_degrade [("U202412345", "张三")] ["x.pdf"] wTaskA "t" (by decide)).1

/-- Witness for C7: two rich-media failures then a success yield Sent with
the retry annotation. -/
theorem c7_transient_retry_witness :
    send_file "group" (some 1) "/data/upload_group_file/x.zip"
        ⟨[some wRespT, some wRespT, some wRespOk], []⟩
      = ((some true, "（已自动重试后成功）"), ⟨[], []⟩) :=
  c7_transient_retry_then_success.1 wRespT wRespT wRespOk [] [] 1 "/data/upload_group_file/x.zip"
    (by decide) (by decide) (by decide) (by decide) (by decide)

/-- Witness for C8 (amended): equal ids force equal components, and a
successful create stores its task under the derived id. -/
theorem c8_task_id_unique_witness :
    ((1 : Int) = 1 ∧ "a" = "a" ∧ (2 : Int) = 2) ∧
    ∃ task : HandinTask, task.task_id = taskId 1 (pyStrip "a") (pyInt 100) ∧
      (create_task [] 100 1 9 "a" [] (some 200)).store
        = dictSet [] (taskId 1 (pyStrip "a") (pyInt 100)) task :=
  ⟨c8_task_id_unique_amended.1 1 "a" 2 1 "a" 2 rfl,
   c8_task_id_unique_amended.2 [] 100 1 9 "a" [] (some 200) (by decide)⟩

/-- Witness for C9 (amended): `0` aborts the awaiting-done collection and the
awaiting-zip-name step on concrete sessions. -/
theorem c9_abort_tokens_witness :
    handle_private_number_choice [] 0 {} wSessDone "0"
      = ⟨true, { wSessDone with files := [], waitDone := false, zipName := none
                                nameInput := false, choose := none },
          [], ["已取消并删除全部临时文件。"], ["/tmp/a"]⟩ ∧
    handle_private_zip_name_input [] 0 [] 7 false "" 0 0 "out.zip" wSessZip "0"
      = ⟨true, { wSessZip with files := [], waitDone := false, zipName := none
                               nameInput := false, choose := none },
          [], ["已取消并删除全部临时文件。"], ["/tmp/a", "/tmp/b"]⟩ :=
  ⟨c9_abort_tokens_amended.2.1 [] 0 {} wSessDone ⟨"submit", ["1:a:100"], 0, none⟩
      rfl rfl rfl rfl (by decide),
   c9_abort_tokens_amended.2.2.2.2.2.2.1 [] 0 [] 7 false "" 0 0 "out.zip" wSessZip
      ⟨0, "sug"⟩ "0" rfl rfl (Or.inl rfl)⟩

end CooperBot
